import Mathlib

/-!
Verification of the reconciliation core of `canvas_course_builder.py`.

The development shallowly embeds the Python source: strings are `String`
(processed as `List Char`), Python `dict` payloads and caches are
association lists, optional values are `Option`, Python `float` points are
`Rat`, and the remote service is an oracle (`Env`) of response functions
where `none` models a failed fetch (an exception raised by `_request`).
Scanning functions that mirror `re.sub` passes take an explicit fuel
argument (initialised to the input length) so that every definition is
structurally recursive and computable by `decide`/`rfl`.
-/

/-! ## Basic string helpers (Python `str` semantics) -/

/-- The whitespace set of Python `str.strip` / `\s` (the characters that
occur in this development: space, tab, newline, carriage return, vertical
tab, form feed, and non-breaking space produced by `&nbsp;`). -/
def pyIsSpace (c : Char) : Bool :=
  c = ' ' || c = '\t' || c = '\n' || c = '\x0d' || c = '\x0b' || c = '\x0c' ||
  c = '\u00A0'

/-- Embeds `str.strip()` on a character list. -/
def pyStripL (l : List Char) : List Char :=
  ((l.dropWhile pyIsSpace).reverse.dropWhile pyIsSpace).reverse

/-- Embeds `str.strip()`. -/
def pyStripS (s : String) : String :=
  String.mk (pyStripL s.toList)

/-- Embeds `str.lower()` (ASCII case folding, which covers the markup involved). -/
def pyLowerS (s : String) : String :=
  String.mk (s.toList.map Char.toLower)

/-- Python `sub in s` on character lists. -/
def listContainsSub (sub : List Char) : List Char → Bool
  | [] => sub.isEmpty
  | c :: cs => sub.isPrefixOf (c :: cs) || listContainsSub sub cs

/-- Python `sub in s` for strings. -/
def strContains (s sub : String) : Bool :=
  listContainsSub sub.toList s.toList

/-- First-match association-list lookup: a Python `dict.get` where entries
are inserted with the most recent write first. -/
def afind {κ α : Type} [DecidableEq κ] : List (κ × α) → κ → Option α
  | [], _ => none
  | (k, v) :: rest, key => if k = key then some v else afind rest key

/-! ## Normalizer (`normalize_html` and its helper passes)

`html.unescape` is a Python standard-library collaborator; it is modelled
on the named and numeric entities this markup uses, leaving every other
`&`-sequence verbatim, exactly as the stdlib does for unknown entities. -/

/-- One entity at the head of the list: the decoded character and the
number of characters consumed. -/
def entityAt (l : List Char) : Option (Char × Nat) :=
  if "&lt;".toList.isPrefixOf l then some ('<', 4)
  else if "&gt;".toList.isPrefixOf l then some ('>', 4)
  else if "&quot;".toList.isPrefixOf l then some ('"', 6)
  else if "&#39;".toList.isPrefixOf l then some ('\'', 5)
  else if "&nbsp;".toList.isPrefixOf l then some (' ', 6)
  else if "&amp;".toList.isPrefixOf l then some ('&', 5)
  else none

/-- Single left-to-right pass of `html.unescape` (fuel = input length). -/
def unescapeAux : Nat → List Char → List Char
  | 0, l => l
  | _ + 1, [] => []
  | fuel + 1, c :: cs =>
    if c = '&' then
      match entityAt (c :: cs) with
      | some (r, n) => r :: unescapeAux fuel ((c :: cs).drop n)
      | none => c :: unescapeAux fuel cs
    else c :: unescapeAux fuel cs

/-- Embeds `html.unescape` on strings. -/
def pyUnescape (s : String) : String :=
  String.mk (unescapeAux s.toList.length s.toList)

/-! ### `markdown_to_html_basic`

Each `re.sub` pass of the source becomes one scanner.  The `MULTILINE`
line-anchored passes (headings and list items) act per line; the inline
passes (links, bold, italics) scan the whole text. -/

/-- One `^<mark>\s+(.+)$` line pattern (headings `#`..`####`, list items
`-` and `*`): if the line starts with `mark` followed by at least one
whitespace character, the captured group (the rest of the line, or the
greedy-backtracking remainder of the whitespace run when nothing else
follows) is wrapped in `pre`/`post`. -/
def lineWrap (mark : List Char) (pre post : String) (line : String) : String :=
  let cs := line.toList
  if mark.isPrefixOf cs then
    let rest := cs.drop mark.length
    let w := rest.takeWhile pyIsSpace
    let r := rest.dropWhile pyIsSpace
    if w.isEmpty then line
    else if ! r.isEmpty then pre ++ String.mk r ++ post
    else if 2 ≤ w.length then pre ++ String.mk (w.drop 1) ++ post
    else line
  else line

/-- Split a character list at newline characters (`str.split('\n')`). -/
def splitOnNl : List Char → List (List Char)
  | [] => [[]]
  | c :: cs =>
    match splitOnNl cs with
    | [] => [[]]
    | h :: t => if c = '\n' then [] :: h :: t else (c :: h) :: t

/-- Rejoin lines with newline separators. -/
def joinNl : List (List Char) → List Char
  | [] => []
  | [l] => l
  | l :: ls => l ++ '\n' :: joinNl ls

/-- Apply a line transformation to every line (a `MULTILINE` `^...$` sub). -/
def mapLines (f : String → String) (s : String) : String :=
  String.mk (joinNl ((splitOnNl s.toList).map (fun l => (f (String.mk l)).toList)))

/-- Markdown link at the head: `[text](url)`. -/
def tryMdLink (l : List Char) : Option (String × Nat) :=
  match l with
  | '[' :: rest =>
    let t := rest.takeWhile (fun c => c != ']')
    if t.isEmpty then none
    else
      match rest.drop t.length with
      | ']' :: '(' :: rest2 =>
        let u := rest2.takeWhile (fun c => c != ')')
        if u.isEmpty then none
        else
          match rest2.drop u.length with
          | ')' :: _ =>
            some ("<a href=\"" ++ String.mk u ++ "\">" ++ String.mk t ++ "</a>",
              t.length + u.length + 4)
          | _ => none
      | _ => none
  | _ => none

/-- Bold at the head: `**text**`. -/
def tryBold (l : List Char) : Option (String × Nat) :=
  match l with
  | '*' :: '*' :: rest =>
    let t := rest.takeWhile (fun c => c != '*')
    if t.isEmpty then none
    else
      match rest.drop t.length with
      | '*' :: '*' :: _ =>
        some ("<strong>" ++ String.mk t ++ "</strong>", t.length + 4)
      | _ => none
  | _ => none

/-- Star italics at the head: `*text*`. -/
def tryStarEm (l : List Char) : Option (String × Nat) :=
  match l with
  | '*' :: rest =>
    let t := rest.takeWhile (fun c => c != '*')
    if t.isEmpty then none
    else
      match rest.drop t.length with
      | '*' :: _ => some ("<em>" ++ String.mk t ++ "</em>", t.length + 2)
      | _ => none
  | _ => none

/-- Generic non-overlapping `re.sub` scanner: replaced text is emitted and
scanning resumes after the match, exactly as `re.sub` does. -/
def subScan (try_ : List Char → Option (String × Nat)) :
    Nat → List Char → List Char
  | 0, l => l
  | _ + 1, [] => []
  | fuel + 1, c :: cs =>
    match try_ (c :: cs) with
    | some (repl, n) => repl.toList ++ subScan try_ fuel ((c :: cs).drop n)
    | none => c :: subScan try_ fuel cs

/-- Underscore italics `(?<!\*)_([^_]+)_(?!\*)`; `prev` is the character
before the scan position (the lookbehind context). -/
def underscoreScan : Nat → Option Char → List Char → List Char
  | 0, _, l => l
  | _ + 1, _, [] => []
  | fuel + 1, prev, c :: cs =>
    if c = '_' && prev != some '*' then
      let t := cs.takeWhile (fun x => x != '_')
      if t.isEmpty then c :: underscoreScan fuel (some c) cs
      else
        match cs.drop t.length with
        | '_' :: rest2 =>
          if rest2.head? = some '*' then c :: underscoreScan fuel (some c) cs
          else ("<em>" ++ String.mk t ++ "</em>").toList ++
            underscoreScan fuel (some '_') rest2
        | _ => c :: underscoreScan fuel (some c) cs
    else c :: underscoreScan fuel (some c) cs

/-- Embeds `markdown_to_html_basic`: headings, list items, links, bold, italics,
in the source's pass order. -/
def markdown_to_html_basic (text : String) : String :=
  let t := mapLines (lineWrap "####".toList "<h4>" "</h4>") text
  let t := mapLines (lineWrap "###".toList "<h3>" "</h3>") t
  let t := mapLines (lineWrap "##".toList "<h2>" "</h2>") t
  let t := mapLines (lineWrap "#".toList "<h1>" "</h1>") t
  let t := mapLines (lineWrap "-".toList "<li>" "</li>") t
  let t := mapLines (lineWrap "*".toList "<li>" "</li>") t
  let t := String.mk (subScan tryMdLink t.toList.length t.toList)
  let t := String.mk (subScan tryBold t.toList.length t.toList)
  let t := String.mk (subScan tryStarEm t.toList.length t.toList)
  String.mk (underscoreScan t.toList.length none t.toList)

/-! ### `HTMLTextExtractor` and `normalize_html` -/

/-- The tokenizing pass of `HTMLTextExtractor.feed`: markup `<...>` is
skipped, text between tags is emitted as data chunks, and an unterminated
tag stays in the parser's buffer (never emitted).  Models the stdlib
`html.parser` behaviour on the markup this pipeline produces. -/
def extractParts : Nat → List Char → List (List Char)
  | 0, _ => []
  | _ + 1, [] => []
  | fuel + 1, '<' :: rest =>
    let t := rest.takeWhile (fun c => c != '>')
    match rest.drop t.length with
    | '>' :: rest2 => extractParts fuel rest2
    | _ => []
  | fuel + 1, l =>
    let chunk := l.takeWhile (fun c => c != '<')
    chunk :: extractParts fuel (l.drop chunk.length)

/-- Embeds `HTMLTextExtractor.handle_data` plus `get_text`: each chunk is stripped,
empty chunks dropped, and the parts joined with single spaces.  The result
type is `Except` because the source guards the feed with `try`/`except`. -/
def extractTextE (s : String) : Except String String :=
  Except.ok (String.intercalate " "
    (((extractParts s.toList.length s.toList).map
        (fun p => String.mk (pyStripL p))).filter (fun p => p ≠ "")))

/-- Fallback tag stripping `re.sub(r'<[^>]+>', ' ', ...)` used when the
HTML parser fails. -/
def tryTag (l : List Char) : Option (String × Nat) :=
  match l with
  | '<' :: rest =>
    let t := rest.takeWhile (fun c => c != '>')
    if t.isEmpty then none
    else
      match rest.drop t.length with
      | '>' :: _ => some (" ", t.length + 2)
      | _ => none
  | _ => none

/-- The fallback pass itself. -/
def stripTagsFallback (s : String) : String :=
  String.mk (subScan tryTag s.toList.length s.toList)

/-- Embeds `re.sub(r'\s+', ' ', text)`: collapse every whitespace run to one
space (`prevSpace` records whether the previous character was part of a
run already collapsed). -/
def collapseWsAux (prevSpace : Bool) : List Char → List Char
  | [] => []
  | c :: cs =>
    if pyIsSpace c then
      if prevSpace then collapseWsAux true cs
      else ' ' :: collapseWsAux true cs
    else c :: collapseWsAux false cs

/-- Whitespace collapsing on strings. -/
def collapseWsS (s : String) : String :=
  String.mk (collapseWsAux false s.toList)

/-- Embeds `normalize_html` with the HTML-extraction step abstracted: the
`try`/`except` of the source catches any extraction failure and falls
back to crude tag stripping. -/
def normalize_html_with (extract : String → Except String String)
    (content : String) : String :=
  if content = "" then ""
  else
    let normalized := markdown_to_html_basic (pyUnescape (pyStripS content))
    let text :=
      match extract normalized with
      | Except.ok t => t
      | Except.error _ => stripTagsFallback normalized
    pyLowerS (pyStripS (collapseWsS text))

/-- Embeds `normalize_html` of the source. -/
def normalize_html (content : String) : String :=
  normalize_html_with extractTextE content

/-- The same pipeline written in the `Except` monad, where the only
fallible step is the markup parser and the `except` clause is the handler
that maps its failure to the fallback: this is the function whose
"never raises" behaviour claim C9 is about. -/
def normalize_htmlE (extract : String → Except String String)
    (content : String) : Except String String :=
  if content = "" then Except.ok ""
  else
    let normalized := markdown_to_html_basic (pyUnescape (pyStripS content))
    (match extract normalized with
     | Except.ok t => Except.ok t
     | Except.error _ => Except.ok (stripTagsFallback normalized)).map
      (fun text => pyLowerS (pyStripS (collapseWsS text)))

/-! ## Data model -/

/-- Embeds `GradeDisplay` enumeration. -/
inductive GradeDisplay
  | complete_incomplete
  | points
  | not_graded
deriving DecidableEq

/-- Embeds `GradeDisplay.to_canvas`: map to the Canvas `grading_type` vocabulary. -/
def GradeDisplay.to_canvas : GradeDisplay → String
  | .complete_incomplete => "pass_fail"
  | .points => "points"
  | .not_graded => "not_graded"

/-- Embeds `SubmissionType` enumeration. -/
inductive SubmissionType
  | online_text
  | online_upload
  | online_url
  | media_recording
  | none
  | on_paper
deriving DecidableEq

/-- The `.value` of each `SubmissionType`. -/
def SubmissionType.value : SubmissionType → String
  | .online_text => "online_text_entry"
  | .online_upload => "online_upload"
  | .online_url => "online_url"
  | .media_recording => "media_recording"
  | .none => "none"
  | .on_paper => "on_paper"

/-- A naive `datetime` (no timezone, microseconds zero), which is what the
markdown parser produces. -/
structure DateTime where
  year : Nat
  month : Nat
  day : Nat
  hour : Nat
  minute : Nat
  second : Nat
deriving DecidableEq

/-- Zero-pad to two digits. -/
def pad2 (n : Nat) : String :=
  if n < 10 then "0" ++ toString n else toString n

/-- Zero-pad to four digits (years in this domain are four-digit). -/
def pad4 (n : Nat) : String :=
  if n < 10 then "000" ++ toString n
  else if n < 100 then "00" ++ toString n
  else if n < 1000 then "0" ++ toString n
  else toString n

/-- Embeds `datetime.isoformat()` for a naive datetime with zero microseconds. -/
def DateTime.isoformat (d : DateTime) : String :=
  pad4 d.year ++ "-" ++ pad2 d.month ++ "-" ++ pad2 d.day ++ "T" ++
  pad2 d.hour ++ ":" ++ pad2 d.minute ++ ":" ++ pad2 d.second

/-- Embeds `TextHeader` item. -/
structure TextHeader where
  title : String
  canvas_module_item_id : Option Nat := none
deriving DecidableEq

/-- Embeds `Page` item.  `canvas_id` is unityped in Python (numeric `page_id` on
create, the markdown-declared page id on update); both are carried as
strings here. -/
structure Page where
  title : String
  content : String
  canvas_id : Option String := none
  canvas_url : Option String := none
  canvas_page_id : Option String := none
  canvas_module_item_id : Option Nat := none
deriving DecidableEq

/-- Embeds `ExternalLink` item. -/
structure ExternalLink where
  title : String
  url : String
  canvas_module_item_id : Option Nat := none
deriving DecidableEq

/-- Embeds `File` item. -/
structure File where
  title : String
  filename : String
  canvas_file_id : Option Nat := none
  canvas_url : Option String := none
  canvas_module_item_id : Option Nat := none
deriving DecidableEq

/-- Embeds `Assignment` item (points are exact decimals, embedded as `Rat`). -/
structure Assignment where
  title : String
  description : String
  points : Rat := 0
  due_at : Option DateTime := none
  grade_display : GradeDisplay := .complete_incomplete
  submission_types : List SubmissionType := [.online_text]
  canvas_id : Option Nat := none
  canvas_url : Option String := none
  canvas_assignment_id : Option Nat := none
  canvas_module_item_id : Option Nat := none
deriving DecidableEq

/-- Embeds `Discussion` item. -/
structure Discussion where
  title : String
  message : String
  require_initial_post : Bool := false
  threaded : Bool := true
  graded : Bool := false
  points : Rat := 0
  due_at : Option DateTime := none
  grade_display : GradeDisplay := .complete_incomplete
  canvas_id : Option Nat := none
  canvas_url : Option String := none
  canvas_discussion_id : Option Nat := none
  canvas_module_item_id : Option Nat := none
deriving DecidableEq

/-- The tagged union of module items (the source dispatches on the Python
class of each item). -/
inductive Item
  | header (h : TextHeader)
  | page (p : Page)
  | link (l : ExternalLink)
  | file (f : File)
  | assignment (a : Assignment)
  | discussion (d : Discussion)
deriving DecidableEq

/-- The source's `Module` dataclass (named `CourseModule` here because
`Module` is taken by Mathlib): a titled ordered container of items. -/
structure CourseModule where
  title : String
  items : List Item := []
  canvas_id : Option Nat := none
  canvas_module_id : Option Nat := none
deriving DecidableEq

/-! ## Remote snapshots (Canvas JSON objects as returned by reads)

Each field is an `Option` because Python reads them with `dict.get`. -/

/-- A module object. -/
structure CanvasModule where
  name : Option String := none
deriving DecidableEq

/-- A wiki page object. -/
structure CanvasPage where
  title : Option String := none
  body : Option String := none
  html_url : Option String := none
deriving DecidableEq

/-- An assignment object. -/
structure CanvasAssignment where
  name : Option String := none
  description : Option String := none
  points_possible : Option Rat := none
  due_at : Option String := none
  grading_type : Option String := none
  submission_types : Option (List String) := none
  html_url : Option String := none
deriving DecidableEq

/-- The `assignment` sub-record of a graded discussion. -/
structure CanvasDiscAssignment where
  points_possible : Option Rat := none
  due_at : Option String := none
  grading_type : Option String := none
deriving DecidableEq

/-- A discussion-topic object.  A missing or empty `assignment` sub-record
(both falsy in Python) is `none`. -/
structure CanvasDiscussion where
  title : Option String := none
  message : Option String := none
  require_initial_post : Option Bool := none
  discussion_type : Option String := none
  assignment : Option CanvasDiscAssignment := none
  html_url : Option String := none
deriving DecidableEq

/-- A module-item object. -/
structure CanvasModuleItem where
  title : Option String := none
  external_url : Option String := none
deriving DecidableEq

/-- File objects from the course file listing (`get_files`). -/
structure FileData where
  id : Option Nat := none
  url : Option String := none
  display_name : Option String := none
deriving DecidableEq

/-- Embeds `ChangeDetectionResult`. -/
structure ChangeDetectionResult where
  has_changes : Bool
  changed_fields : List String
  reason : Option String := none
deriving DecidableEq

/-- Python truthiness normalisation `x if x else None` on an optional
string: an empty string is falsy. -/
def truthyStr : Option String → Option String
  | some s => if s = "" then none else some s
  | none => none

/-- Python set equality of two lists of strings. -/
def listSetEq (xs ys : List String) : Bool :=
  xs.all (fun x => ys.contains x) && ys.all (fun y => xs.contains y)

/-- Assemble a `ChangeDetectionResult` from the ordered changed-field list
(the shared tail of every comparator). -/
def mkResult (changed : List String) : ChangeDetectionResult :=
  { has_changes := !changed.isEmpty
    changed_fields := changed
    reason := if changed.isEmpty then none
      else some ("Changed: " ++ String.intercalate ", " changed) }

/-! ## Change Detector (`ContentComparator`) -/

namespace ContentComparator

/-- Embeds `compare_module`: module metadata (title only). -/
def compare_module (lcl : CourseModule) (canvas_data : CanvasModule) :
    ChangeDetectionResult :=
  mkResult (if lcl.title ≠ canvas_data.name.getD "" then ["title"] else [])

/-- Embeds `compare_text_header`: module-item title. -/
def compare_text_header (lcl : TextHeader) (canvas_data : CanvasModuleItem) :
    ChangeDetectionResult :=
  mkResult (if lcl.title ≠ canvas_data.title.getD "" then ["title"] else [])

/-- Embeds `compare_external_link`: module-item title and URL. -/
def compare_external_link (lcl : ExternalLink)
    (canvas_data : CanvasModuleItem) : ChangeDetectionResult :=
  mkResult
    ((if lcl.title ≠ canvas_data.title.getD "" then ["title"] else []) ++
     (if lcl.url ≠ canvas_data.external_url.getD "" then ["url"] else []))

/-- Embeds `compare_page`: title, and body under normalization. -/
def compare_page (lcl : Page) (canvas_data : CanvasPage) :
    ChangeDetectionResult :=
  mkResult
    ((if lcl.title ≠ canvas_data.title.getD "" then ["title"] else []) ++
     (if normalize_html lcl.content ≠ normalize_html (canvas_data.body.getD "")
      then ["content"] else []))

/-- Embeds `compare_assignment`: title, description (normalized), points, due
date (canonical ISO text, Python-falsy canvas value treated as absent),
grading type (both sides in Canvas vocabulary), submission types (as
sets). -/
def compare_assignment (lcl : Assignment) (canvas_data : CanvasAssignment) :
    ChangeDetectionResult :=
  mkResult
    ((if lcl.title ≠ canvas_data.name.getD "" then ["title"] else []) ++
     (if normalize_html lcl.description ≠
        normalize_html (canvas_data.description.getD "")
      then ["description"] else []) ++
     (if lcl.points ≠ canvas_data.points_possible.getD 0
      then ["points"] else []) ++
     (if lcl.due_at.map DateTime.isoformat ≠ truthyStr canvas_data.due_at
      then ["due_date"] else []) ++
     (if lcl.grade_display.to_canvas ≠ canvas_data.grading_type.getD "pass_fail"
      then ["grading_type"] else []) ++
     (if ! listSetEq (lcl.submission_types.map SubmissionType.value)
          (canvas_data.submission_types.getD [])
      then ["submission_types"] else []))

/-- Embeds `compare_discussion`: title, message (normalized), require-initial-
post, discussion type, then the graded/ungraded transition and — only when
the local discussion is graded and the remote has an assignment sub-record
— the grading fields. -/
def compare_discussion (lcl : Discussion) (canvas_data : CanvasDiscussion) :
    ChangeDetectionResult :=
  mkResult
    ((if lcl.title ≠ canvas_data.title.getD "" then ["title"] else []) ++
     (if normalize_html lcl.message ≠
        normalize_html (canvas_data.message.getD "")
      then ["message"] else []) ++
     (if lcl.require_initial_post ≠ canvas_data.require_initial_post.getD false
      then ["require_initial_post"] else []) ++
     (if (if lcl.threaded then "threaded" else "side_comment") ≠
        canvas_data.discussion_type.getD "threaded"
      then ["discussion_type"] else []) ++
     (if lcl.graded then
        match canvas_data.assignment with
        | none => ["graded_status"]
        | some asg =>
          (if lcl.points ≠ asg.points_possible.getD 0
           then ["points"] else []) ++
          (if lcl.due_at.map DateTime.isoformat ≠ truthyStr asg.due_at
           then ["due_date"] else []) ++
          (if lcl.grade_display.to_canvas ≠ asg.grading_type.getD "pass_fail"
           then ["grading_type"] else [])
      else
        match canvas_data.assignment with
        | none => []
        | some _ => ["graded_status"]))

end ContentComparator

/-! ## Reference Resolver (`LinkResolver`) -/

/-- The four reference kinds of `LINK_PATTERN`
`\[\[(Page|Assignment|Discussion|File):([^\]]+)\]\]`. -/
inductive LinkKind
  | page
  | assignment
  | discussion
  | file
deriving DecidableEq

/-- The literal tag (kind name plus colon) of each kind, in the pattern's
alternation order. -/
def LinkKind.tag : LinkKind → List Char
  | .page => "Page:".toList
  | .assignment => "Assignment:".toList
  | .discussion => "Discussion:".toList
  | .file => "File:".toList

/-- Match one of the four kind tags at the head of the list (alternation
tried in the pattern's order; the four first letters are distinct, so the
order is immaterial). -/
def tryKind (l : List Char) : Option (LinkKind × List Char) :=
  if LinkKind.page.tag.isPrefixOf l then some (.page, l.drop LinkKind.page.tag.length)
  else if LinkKind.assignment.tag.isPrefixOf l then
    some (.assignment, l.drop LinkKind.assignment.tag.length)
  else if LinkKind.discussion.tag.isPrefixOf l then
    some (.discussion, l.drop LinkKind.discussion.tag.length)
  else if LinkKind.file.tag.isPrefixOf l then
    some (.file, l.drop LinkKind.file.tag.length)
  else none

/-- The total length of a matched placeholder `[[tag title]]` with kind
`k` and raw title `t`. -/
def linkLen (k : LinkKind) (t : List Char) : Nat :=
  t.length + k.tag.length + 4

/-- Match `LINK_PATTERN` at the head of the list: `[[`, a kind tag, a
nonempty run of non-`]` characters (the raw title), then `]]`.  Returns
the kind and the raw title; the matched text has length `linkLen`. -/
def tryLink (l : List Char) : Option (LinkKind × List Char) :=
  match l with
  | '[' :: '[' :: rest =>
    match tryKind rest with
    | some (k, rest2) =>
      let t := rest2.takeWhile (fun c => c != ']')
      if t.isEmpty then none
      else
        match rest2.drop t.length with
        | ']' :: ']' :: _ => some (k, t)
        | _ => none
    | none => none
  | _ => none

/-- The resolver's registration tables: each maps a lowercased title to
the registered object's `canvas_url` attribute (for pages, assignments and
discussions) or to the file object (for files).  Registration prepends, so
lookup by `afind` gives Python's last-write-wins `dict` semantics. -/
structure LinkResolver where
  base_url : String
  course_id : String
  pages : List (String × Option String) := []
  assignments : List (String × Option String) := []
  discussions : List (String × Option String) := []
  files : List (String × FileData) := []

/-- Embeds `register_page` (the registered value is the page's `canvas_url`). -/
def LinkResolver.register_page (r : LinkResolver) (p : Page) : LinkResolver :=
  { r with pages := (pyLowerS p.title, p.canvas_url) :: r.pages }

/-- Embeds `register_assignment`. -/
def LinkResolver.register_assignment (r : LinkResolver) (a : Assignment) :
    LinkResolver :=
  { r with assignments := (pyLowerS a.title, a.canvas_url) :: r.assignments }

/-- Embeds `register_discussion`. -/
def LinkResolver.register_discussion (r : LinkResolver) (d : Discussion) :
    LinkResolver :=
  { r with discussions := (pyLowerS d.title, d.canvas_url) :: r.discussions }

/-- Embeds `register_file`. -/
def LinkResolver.register_file (r : LinkResolver) (filename : String)
    (fd : FileData) : LinkResolver :=
  { r with files := (pyLowerS filename, fd) :: r.files }

/-- The resolved replacement for one matched placeholder, when its target
is registered with a truthy URL (`replace_link`'s success paths); `none`
means the fall-through "link not found" path. -/
def resolveTarget (r : LinkResolver) (k : LinkKind) (titleLower title : String) :
    Option String :=
  match k with
  | .page =>
    match afind r.pages titleLower with
    | some u =>
      match truthyStr u with
      | some url => some ("<a href=\"" ++ url ++ "\">" ++ title ++ "</a>")
      | none => none
    | none => none
  | .assignment =>
    match afind r.assignments titleLower with
    | some u =>
      match truthyStr u with
      | some url => some ("<a href=\"" ++ url ++ "\">" ++ title ++ "</a>")
      | none => none
    | none => none
  | .discussion =>
    match afind r.discussions titleLower with
    | some u =>
      match truthyStr u with
      | some url => some ("<a href=\"" ++ url ++ "\">" ++ title ++ "</a>")
      | none => none
    | none => none
  | .file =>
    match afind r.files titleLower with
    | some fd =>
      match truthyStr fd.url with
      | some _ =>
        let display_name := fd.display_name.getD title
        let fileIdStr := match fd.id with
          | some n => toString n
          | none => "None"
        some ("<a href=\"" ++ r.base_url ++ "/courses/" ++ r.course_id ++
          "/files/" ++ fileIdStr ++ "\" class=\"instructure_file_link\">" ++
          display_name ++ "</a>")
      | none => none
    | none => none

/-- Embeds `replace_link`: the matched raw title is stripped, looked up by its
lowercased form, and an unresolved placeholder is replaced by the bare
title text (a console warning is reported; the run continues). -/
def replaceLink (r : LinkResolver) (k : LinkKind) (rawTitle : List Char) :
    String :=
  let title := pyStripS (String.mk rawTitle)
  match resolveTarget r k (pyLowerS title) title with
  | some anchor => anchor
  | none => title

/-- The `LINK_PATTERN.sub(replace_link, content)` scan (fuel = input
length): replacements are emitted verbatim and scanning resumes after the
matched text. -/
def resolveAux (r : LinkResolver) : Nat → List Char → List Char
  | 0, l => l
  | _ + 1, [] => []
  | fuel + 1, c :: cs =>
    match tryLink (c :: cs) with
    | some (k, t) =>
      (replaceLink r k t).toList ++ resolveAux r fuel ((c :: cs).drop (linkLen k t))
    | none => c :: resolveAux r fuel cs

/-- Embeds `LinkResolver.resolve`. -/
def LinkResolver.resolve (r : LinkResolver) (content : String) : String :=
  String.mk (resolveAux r content.toList.length content.toList)

/-- Embeds `LINK_PATTERN.search(content)` as a boolean: some position of the text
matches the placeholder pattern. -/
def hasLinkAux : List Char → Bool
  | [] => false
  | c :: cs => (tryLink (c :: cs)).isSome || hasLinkAux cs

/-- Embeds `has_internal_links` on plain text. -/
def hasInternalLinksStr (content : String) : Bool :=
  hasLinkAux content.toList

/-- Embeds `LinkResolver.has_internal_links` (the resolver state is unused; the
pattern is a class attribute). -/
def LinkResolver.has_internal_links (_r : LinkResolver) (content : String) :
    Bool :=
  hasInternalLinksStr content

/-- A resolver with empty registration tables. -/
def emptyResolver : LinkResolver :=
  { base_url := "https://canvas.example.edu", course_id := "1001" }

/-! ## Request payloads (`CanvasAPI.create_assignment` /
`update_assignment_full`)

A payload is the `data` dict as an ordered association list.  The due
timestamp is serialised with a local-timezone attachment whose offset
depends on the host environment, so its serialised form is carried as an
opaque `PV.due` value; claims inspect payload keys, never that value. -/

/-- Payload values. -/
inductive PV
  | str (s : String)
  | num (q : Rat)
  | due (d : DateTime)
deriving DecidableEq

/-- The `data` dict built by `CanvasAPI.create_assignment`, in insertion
order. -/
def create_assignment_payload (name : String) (description : String)
    (points_possible : Rat) (due_at : Option DateTime) (grading_type : String)
    (submission_types : Option (List String)) (published : Bool) :
    List (String × PV) :=
  [("assignment[name]", PV.str name),
   ("assignment[description]", PV.str description),
   ("assignment[points_possible]", PV.num points_possible),
   ("assignment[grading_type]", PV.str grading_type),
   ("assignment[published]", PV.str (if published then "true" else "false"))] ++
  (match due_at with
   | some d => [("assignment[due_at]", PV.due d)]
   | none => []) ++
  (match submission_types with
   | some [] =>
     [("assignment[submission_types][]", PV.str "online_text_entry")]
   | none =>
     [("assignment[submission_types][]", PV.str "online_text_entry")]
   | some sts =>
     if sts = ["none"] then
       [("assignment[submission_types][]", PV.str "none")]
     else
       sts.enum.map (fun iv =>
         ("assignment[submission_types][" ++ toString iv.1 ++ "]",
          PV.str iv.2)))

/-- The `data` dict built by `CanvasAPI.update_assignment_full`, in
insertion order.  The `submission_types` parameter exists in the source's
signature but is deliberately never written to the payload (Canvas rejects
changes to it after creation). -/
def update_assignment_full_payload (_assignment_id : Nat) (name : String)
    (description : String) (points_possible : Rat) (due_at : Option DateTime)
    (grading_type : String) (_submission_types : Option (List String)) :
    List (String × PV) :=
  [("assignment[name]", PV.str name),
   ("assignment[description]", PV.str description),
   ("assignment[points_possible]", PV.num points_possible),
   ("assignment[grading_type]", PV.str grading_type)] ++
  (match due_at with
   | some d => [("assignment[due_at]", PV.due d)]
   | none => [])

/-- A key that addresses the submission-types field of an assignment
payload. -/
def isSubmissionTypesKey (k : String) : Bool :=
  "assignment[submission_types]".toList.isPrefixOf k.toList

/-! ## Reconciliation Engine (`CourseBuilder.build`)

The engine is modelled as the ordered trace of Canvas API calls a run
makes.  Call constructors carry the identifying arguments (ids, titles);
request bodies are not part of the trace (the assignment payload shape is
modelled separately above).  The remote service is an `Env` of response
functions: a read returning `none` models `_request` raising (the fetch
failure recorded by `_fetch_existing_data`). -/

/-- One Canvas API invocation. -/
inductive ApiCall
  | getFiles
  | getModule (module_id : Nat)
  | getPage (page_id : String)
  | getAssignment (assignment_id : Nat)
  | getDiscussion (topic_id : Nat)
  | getModuleItem (module_id : Nat) (item_id : Nat)
  | createModule (name : String)
  | updateModule (module_id : Nat)
  | createPage (title : String)
  | updatePage (page_id : String)
  | createAssignment (name : String)
  | updateAssignmentFull (assignment_id : Nat)
  | updateAssignment (assignment_id : Nat)
  | createDiscussion (title : String)
  | updateDiscussionFull (topic_id : Nat)
  | updateDiscussion (topic_id : Nat)
  | createModuleItem (module_id : Nat)
  | updateModuleItem (module_id : Nat) (item_id : Nat)
deriving DecidableEq

/-- A write call (POST or PUT); the rest are GETs. -/
def ApiCall.isWrite : ApiCall → Bool
  | .getFiles | .getModule _ | .getPage _ | .getAssignment _
  | .getDiscussion _ | .getModuleItem _ _ => false
  | _ => true

/-- The remote service oracle: read responses (`none` = the request
raised) and the service-assigned results of creates/updates. -/
structure Env where
  base_url : String
  course_id : String
  files : List FileData
  modules : Nat → Option CanvasModule
  pages : String → Option CanvasPage
  assignments : Nat → Option CanvasAssignment
  discussions : Nat → Option CanvasDiscussion
  moduleItems : Nat → Nat → Option CanvasModuleItem
  createdModuleId : String → Nat
  createdPage : String → Nat × String
  updatedPageUrl : String → Option String
  createdAssignment : String → Nat × String
  updatedAssignmentUrl : Nat → Option String
  createdDiscussion : String → Nat × String
  updatedDiscussionUrl : Nat → Option String

/-- Embeds `get_file_by_name`: exact `display_name` match first, then
case-insensitive. -/
def get_file_by_name (filename : String) (files_cache : List FileData) :
    Option FileData :=
  match files_cache.find? (fun f => f.display_name = some filename) with
  | some f => some f
  | none =>
    files_cache.find? (fun f =>
      pyLowerS (f.display_name.getD "") = pyLowerS filename)

/-- The body attribute of an item, as read by the `'[[File:' in
getattr(item, ..., '')` checks (items without a body read as `""`). -/
def itemBody : Item → String
  | .page p => p.content
  | .assignment a => a.description
  | .discussion d => d.message
  | _ => ""

/-- Does any of the item's text attributes contain a `[[File:` reference? -/
def itemHasFileLink (it : Item) : Bool :=
  strContains (itemBody it) "[[File:"

/-- Is the item a `File` instance? -/
def isFileItem : Item → Bool
  | .file _ => true
  | _ => false

/-- The per-item disjunct of `has_existing`. -/
def itemHasAnyId : Item → Bool
  | .header h => h.canvas_module_item_id.isSome
  | .page p => p.canvas_module_item_id.isSome || p.canvas_page_id.isSome
  | .link l => l.canvas_module_item_id.isSome
  | .file f => f.canvas_module_item_id.isSome
  | .assignment a =>
    a.canvas_module_item_id.isSome || a.canvas_assignment_id.isSome
  | .discussion d =>
    d.canvas_module_item_id.isSome || d.canvas_discussion_id.isSome

/-- Embeds `has_existing`: any module or item declares a remote identity. -/
def hasExisting (modules : List CourseModule) : Bool :=
  modules.any (fun m =>
    m.canvas_module_id.isSome || m.items.any itemHasAnyId)

/-- The read calls of `_fetch_existing_data`, in traversal order (the call
is issued whether or not it succeeds). -/
def fetchCalls (modules : List CourseModule) : List ApiCall :=
  modules.flatMap (fun m =>
    (match m.canvas_module_id with
     | some mid => [ApiCall.getModule mid]
     | none => []) ++
    m.items.flatMap (fun it =>
      match it with
      | .page p =>
        match p.canvas_page_id with
        | some pid => [ApiCall.getPage pid]
        | none => []
      | .assignment a =>
        match a.canvas_assignment_id with
        | some aid => [ApiCall.getAssignment aid]
        | none => []
      | .discussion d =>
        match d.canvas_discussion_id with
        | some did => [ApiCall.getDiscussion did]
        | none => []
      | .header h =>
        match h.canvas_module_item_id, m.canvas_module_id with
        | some iid, some mid => [ApiCall.getModuleItem mid iid]
        | _, _ => []
      | .link l =>
        match l.canvas_module_item_id, m.canvas_module_id with
        | some iid, some mid => [ApiCall.getModuleItem mid iid]
        | _, _ => []
      | .file _ => []))

/-- The `canvas_data_cache` populated by `_fetch_existing_data`: one entry
per successful fetch, keyed by the declared identity. -/
structure Caches where
  modules : List (Nat × CanvasModule)
  pages : List (String × CanvasPage)
  assignments : List (Nat × CanvasAssignment)
  discussions : List (Nat × CanvasDiscussion)
  module_items : List (Nat × CanvasModuleItem)

/-- An empty cache (the not-update-mode run never fetches). -/
def emptyCaches : Caches :=
  { modules := [], pages := [], assignments := [], discussions := []
    module_items := [] }

/-- Build the cache contents from the oracle (an entry exists exactly when
the corresponding fetch succeeded). -/
def buildCaches (env : Env) (modules : List CourseModule) : Caches :=
  { modules := modules.filterMap (fun m =>
      m.canvas_module_id.bind (fun mid =>
        (env.modules mid).map (fun cd => (mid, cd))))
    pages := (modules.flatMap (fun m => m.items)).filterMap (fun it =>
      match it with
      | .page p =>
        p.canvas_page_id.bind (fun pid =>
          (env.pages pid).map (fun cd => (pid, cd)))
      | _ => none)
    assignments := (modules.flatMap (fun m => m.items)).filterMap (fun it =>
      match it with
      | .assignment a =>
        a.canvas_assignment_id.bind (fun aid =>
          (env.assignments aid).map (fun cd => (aid, cd)))
      | _ => none)
    discussions := (modules.flatMap (fun m => m.items)).filterMap (fun it =>
      match it with
      | .discussion d =>
        d.canvas_discussion_id.bind (fun did =>
          (env.discussions did).map (fun cd => (did, cd)))
      | _ => none)
    module_items := modules.flatMap (fun m =>
      match m.canvas_module_id with
      | some mid =>
        m.items.filterMap (fun it =>
          match it with
          | .header h =>
            h.canvas_module_item_id.bind (fun iid =>
              (env.moduleItems mid iid).map (fun cd => (iid, cd)))
          | .link l =>
            l.canvas_module_item_id.bind (fun iid =>
              (env.moduleItems mid iid).map (fun cd => (iid, cd)))
          | _ => none)
      | none => []) }

/-- Phase-1 calls for one module's own record (`build`'s create-or-update
of the module): with a declared id and a cached snapshot, update only on a
detected change; with a declared id and no snapshot, update
unconditionally; otherwise create. -/
def moduleCalls (cache : Caches) (m : CourseModule) : List ApiCall :=
  match m.canvas_module_id with
  | some mid =>
    match afind cache.modules mid with
    | some cd =>
      if (ContentComparator.compare_module m cd).has_changes then
        [ApiCall.updateModule mid]
      else []
    | none => [ApiCall.updateModule mid]
  | none => [ApiCall.createModule m.title]

/-- Phase-1 calls for one item (`_create_or_update_item`): headers,
external links and files make no content call; pages, assignments and
discussions follow the same decision triple as modules. -/
def itemPhase1Calls (cache : Caches) (it : Item) : List ApiCall :=
  match it with
  | .header _ => []
  | .link _ => []
  | .file _ => []
  | .page p =>
    match p.canvas_page_id with
    | some pid =>
      match afind cache.pages pid with
      | some cd =>
        if (ContentComparator.compare_page p cd).has_changes then
          [ApiCall.updatePage pid]
        else []
      | none => [ApiCall.updatePage pid]
    | none => [ApiCall.createPage p.title]
  | .assignment a =>
    match a.canvas_assignment_id with
    | some aid =>
      match afind cache.assignments aid with
      | some cd =>
        if (ContentComparator.compare_assignment a cd).has_changes then
          [ApiCall.updateAssignmentFull aid]
        else []
      | none => [ApiCall.updateAssignmentFull aid]
    | none => [ApiCall.createAssignment a.title]
  | .discussion d =>
    match d.canvas_discussion_id with
    | some did =>
      match afind cache.discussions did with
      | some cd =>
        if (ContentComparator.compare_discussion d cd).has_changes then
          [ApiCall.updateDiscussionFull did]
        else []
      | none => [ApiCall.updateDiscussionFull did]
    | none => [ApiCall.createDiscussion d.title]

/-- All Phase-1 calls, in container order (module record first, then its
items). -/
def phase1Calls (cache : Caches) (modules : List CourseModule) :
    List ApiCall :=
  modules.flatMap (fun m =>
    moduleCalls cache m ++ m.items.flatMap (itemPhase1Calls cache))

/-- The Canvas-id/URL attachments performed on an item by Phase 1 (the
mutation effect of `_create_or_update_item`).  URLs come from the
response's `html_url` with the source's literal fallback. -/
def applyPhase1Item (env : Env) (cache : Caches) (files_cache : List FileData)
    (it : Item) : Item :=
  match it with
  | .header h => .header h
  | .link l => .link l
  | .file f =>
    match get_file_by_name f.filename files_cache with
    | some fd => .file { f with canvas_file_id := fd.id, canvas_url := fd.url }
    | none => .file f
  | .page p =>
    match p.canvas_page_id with
    | some pid =>
      let fallback := env.base_url ++ "/courses/" ++ env.course_id ++
        "/pages/" ++ pid
      match afind cache.pages pid with
      | some cd =>
        if (ContentComparator.compare_page p cd).has_changes then
          .page { p with
            canvas_id := some pid,
            canvas_url := some ((env.updatedPageUrl pid).getD fallback) }
        else
          .page { p with
            canvas_id := some pid,
            canvas_url := some (cd.html_url.getD fallback) }
      | none =>
        .page { p with
            canvas_id := some pid,
            canvas_url := some ((env.updatedPageUrl pid).getD fallback) }
    | none =>
      let res := env.createdPage p.title
      .page { p with
            canvas_id := some (toString res.1),
            canvas_url := some res.2 }
  | .assignment a =>
    match a.canvas_assignment_id with
    | some aid =>
      let fallback := env.base_url ++ "/courses/" ++ env.course_id ++
        "/assignments/" ++ toString aid
      match afind cache.assignments aid with
      | some cd =>
        if (ContentComparator.compare_assignment a cd).has_changes then
          .assignment { a with
            canvas_id := some aid,
            canvas_url := some ((env.updatedAssignmentUrl aid).getD fallback) }
        else
          .assignment { a with
            canvas_id := some aid,
            canvas_url := some (cd.html_url.getD fallback) }
      | none =>
        .assignment { a with
            canvas_id := some aid,
            canvas_url := some ((env.updatedAssignmentUrl aid).getD fallback) }
    | none =>
      let res := env.createdAssignment a.title
      .assignment { a with canvas_id := some res.1, canvas_url := some res.2 }
  | .discussion d =>
    match d.canvas_discussion_id with
    | some did =>
      let fallback := env.base_url ++ "/courses/" ++ env.course_id ++
        "/discussion_topics/" ++ toString did
      match afind cache.discussions did with
      | some cd =>
        if (ContentComparator.compare_discussion d cd).has_changes then
          .discussion { d with
            canvas_id := some did,
            canvas_url := some ((env.updatedDiscussionUrl did).getD fallback) }
        else
          .discussion { d with
            canvas_id := some did,
            canvas_url := some (cd.html_url.getD fallback) }
      | none =>
        .discussion { d with
            canvas_id := some did,
            canvas_url := some ((env.updatedDiscussionUrl did).getD fallback) }
    | none =>
      let res := env.createdDiscussion d.title
      .discussion { d with canvas_id := some res.1, canvas_url := some res.2 }

/-- The module's own Phase-1 mutation: `canvas_id` becomes the declared id
or the id assigned by `create_module`. -/
def applyPhase1Module (env : Env) (m : CourseModule) : CourseModule :=
  match m.canvas_module_id with
  | some mid => { m with canvas_id := some mid }
  | none => { m with canvas_id := some (env.createdModuleId m.title) }

/-- Membership test for `items_needing_link_resolution` (appended during
Phase 1 for pages, assignments and discussions whose body contains an
internal link). -/
def needsLinkRes : Item → Bool
  | .page p => hasInternalLinksStr p.content
  | .assignment a => hasInternalLinksStr a.description
  | .discussion d => hasInternalLinksStr d.message
  | _ => false

/-- Phase-2 calls (`_resolve_links`): one content update per collected
item, in collection order.  The page slug is the last URL segment, as in
the source. -/
def phase2Calls (env : Env) (cache : Caches) (files_cache : List FileData)
    (modules : List CourseModule) : List ApiCall :=
  (modules.flatMap (fun m => m.items.filter needsLinkRes)).flatMap (fun it =>
    match applyPhase1Item env cache files_cache it with
    | .page p =>
      [ApiCall.updatePage ((((p.canvas_url.getD "").splitOn "/").getLastD ""))]
    | .assignment a => [ApiCall.updateAssignment (a.canvas_id.getD 0)]
    | .discussion d => [ApiCall.updateDiscussion (d.canvas_id.getD 0)]
    | _ => [])

/-- Phase-3 calls for one (phase-1-updated) item (`_add_to_module`): an
item with a placement identity is always position-updated, one without is
placed with a create; a file whose lookup failed is skipped. -/
def phase3ItemCalls (mcid : Nat) : Item → List ApiCall
  | .header h =>
    match h.canvas_module_item_id with
    | some iid => [ApiCall.updateModuleItem mcid iid]
    | none => [ApiCall.createModuleItem mcid]
  | .page p =>
    match p.canvas_module_item_id with
    | some iid => [ApiCall.updateModuleItem mcid iid]
    | none => [ApiCall.createModuleItem mcid]
  | .link l =>
    match l.canvas_module_item_id with
    | some iid => [ApiCall.updateModuleItem mcid iid]
    | none => [ApiCall.createModuleItem mcid]
  | .file f =>
    match f.canvas_file_id with
    | none => []
    | some _ =>
      match f.canvas_module_item_id with
      | some iid => [ApiCall.updateModuleItem mcid iid]
      | none => [ApiCall.createModuleItem mcid]
  | .assignment a =>
    match a.canvas_module_item_id with
    | some iid => [ApiCall.updateModuleItem mcid iid]
    | none => [ApiCall.createModuleItem mcid]
  | .discussion d =>
    match d.canvas_module_item_id with
    | some iid => [ApiCall.updateModuleItem mcid iid]
    | none => [ApiCall.createModuleItem mcid]

/-- All Phase-3 calls, in declared order. -/
def phase3Calls (env : Env) (cache : Caches) (files_cache : List FileData)
    (modules : List CourseModule) : List ApiCall :=
  modules.flatMap (fun m =>
    let m' := applyPhase1Module env m
    m.items.flatMap (fun it =>
      phase3ItemCalls (m'.canvas_id.getD 0)
        (applyPhase1Item env cache files_cache it)))

namespace CourseBuilder

/-- Embeds `CourseBuilder.build` as its ordered API-call trace: Phase 0 file
listing, Phase 0.5 snapshot prefetch, then (unless `dry_run`, whose
preview makes no further calls) Phases 1–3. -/
def build (env : Env) (modules : List CourseModule) (dry_run : Bool) :
    List ApiCall :=
  let has_files := modules.any (fun m => m.items.any isFileItem)
  let has_file_links := modules.any (fun m => m.items.any itemHasFileLink)
  let filesTrace := if has_files || has_file_links then [ApiCall.getFiles] else []
  let files_cache := if has_files || has_file_links then env.files else []
  let has_existing := hasExisting modules
  let fetchTrace := if has_existing then fetchCalls modules else []
  let cache := if has_existing then buildCaches env modules else emptyCaches
  if dry_run then filesTrace ++ fetchTrace
  else
    filesTrace ++ fetchTrace ++ phase1Calls cache modules ++
    phase2Calls env cache files_cache modules ++
    phase3Calls env cache files_cache modules

end CourseBuilder

/-! ## Concrete instances used by witnesses and counterexamples -/

/-- An extractor that fails on every input: exercises the `except` fallback
of the normalizer. -/
def failingExtractor : String → Except String String :=
  fun _ => Except.error "markup parse failure"

/-- Remote state for the idempotence counterexample: the module and its
placement record both exist and are byte-identical to the local tree. -/
def envC1 : Env :=
  { base_url := "https://canvas.example.edu"
    course_id := "1001"
    files := []
    modules := fun mid => if mid = 1 then some { name := some "Week 1" } else none
    pages := fun _ => none
    assignments := fun _ => none
    discussions := fun _ => none
    moduleItems := fun mid iid =>
      if mid = 1 && iid = 2 then some { title := some "Readings" } else none
    createdModuleId := fun _ => 90
    createdPage := fun _ => (91, "https://canvas.example.edu/courses/1001/pages/p91")
    updatedPageUrl := fun _ => none
    createdAssignment := fun _ => (92, "u92")
    updatedAssignmentUrl := fun _ => none
    createdDiscussion := fun _ => (93, "u93")
    updatedDiscussionUrl := fun _ => none }

/-- Local tree for the idempotence counterexample: everything carries its
remote identity and equals the remote snapshot. -/
def modsC1 : List CourseModule :=
  [{ title := "Week 1"
     canvas_module_id := some 1
     items := [Item.header { title := "Readings", canvas_module_item_id := some 2 }] }]

/-- Remote state for the conservative-update witness: the assignment with
id 7 exists locally but its snapshot fetch fails. -/
def envW7 : Env :=
  { base_url := "https://canvas.example.edu"
    course_id := "1001"
    files := []
    modules := fun _ => none
    pages := fun _ => none
    assignments := fun _ => none
    discussions := fun _ => none
    moduleItems := fun _ _ => none
    createdModuleId := fun _ => 90
    createdPage := fun _ => (91, "p91")
    updatedPageUrl := fun _ => none
    createdAssignment := fun _ => (92, "u92")
    updatedAssignmentUrl := fun _ => none
    createdDiscussion := fun _ => (93, "u93")
    updatedDiscussionUrl := fun _ => none }

/-- Local tree for the conservative-update witness. -/
def modsW7 : List CourseModule :=
  [{ title := "Week 2"
     canvas_module_id := some 5
     items := [Item.assignment { title := "Essay", description := "Write."
                                 canvas_assignment_id := some 7 }] }]

/-- The placement identity of an item. -/
def itemModuleItemId : Item → Option Nat
  | .header h => h.canvas_module_item_id
  | .page p => p.canvas_module_item_id
  | .link l => l.canvas_module_item_id
  | .file f => f.canvas_module_item_id
  | .assignment a => a.canvas_module_item_id
  | .discussion d => d.canvas_module_item_id

/-- Is the call a placement update (`update_module_item`)? -/
def isUpdateModuleItem : ApiCall → Bool
  | .updateModuleItem _ _ => true
  | _ => false

/-- A "second-run" item: it carries its placement identity; content items
additionally carry their content identity, their snapshot fetch succeeds,
the change detector reports no difference, and the body contains no
internal-link placeholder. -/
def itemClean (env : Env) : Item → Bool
  | .header h => h.canvas_module_item_id.isSome
  | .link l => l.canvas_module_item_id.isSome
  | .file f => f.canvas_module_item_id.isSome
  | .page p =>
    p.canvas_module_item_id.isSome &&
    (match p.canvas_page_id with
     | some pid =>
       match env.pages pid with
       | some cd => !(ContentComparator.compare_page p cd).has_changes
       | none => false
     | none => false) &&
    !hasInternalLinksStr p.content
  | .assignment a =>
    a.canvas_module_item_id.isSome &&
    (match a.canvas_assignment_id with
     | some aid =>
       match env.assignments aid with
       | some cd => !(ContentComparator.compare_assignment a cd).has_changes
       | none => false
     | none => false) &&
    !hasInternalLinksStr a.description
  | .discussion d =>
    d.canvas_module_item_id.isSome &&
    (match d.canvas_discussion_id with
     | some did =>
       match env.discussions did with
       | some cd => !(ContentComparator.compare_discussion d cd).has_changes
       | none => false
     | none => false) &&
    !hasInternalLinksStr d.message

/-- A "second-run" module: it carries its identity, its snapshot fetch
succeeds, the detector reports no difference, and all items are clean. -/
def moduleClean (env : Env) (m : CourseModule) : Bool :=
  (match m.canvas_module_id with
   | some mid =>
     match env.modules mid with
     | some cd => !(ContentComparator.compare_module m cd).has_changes
     | none => false
   | none => false) &&
  m.items.all (itemClean env)

/-! ## Helper lemmas -/

/-- Membership in a conditional singleton chunk of a changed-field list. -/
theorem mem_ite_list {α : Type} (a b : α) (c : Prop) [Decidable c] :
    (a ∈ if c then [b] else []) ↔ c ∧ a = b := by
  split <;> simp_all

/-- A list with a nonempty right append part is nonempty. -/
theorem isEmpty_append_of_right {α : Type} (l1 l2 : List α) (h : l2 ≠ []) :
    (l1 ++ l2).isEmpty = false := by
  cases l1 <;> cases l2 <;> simp_all

/-- C5: a graded local `Discussion` against a remote snapshot with no
assignment sub-record always reports a change including `graded_status`,
whatever the other fields; and with `graded = false` the grading fields
(points, due date, grading type) never appear in the changed-field list. -/
theorem C5_graded_flag_transition (d : Discussion) (c : CanvasDiscussion) :
    (d.graded = true → c.assignment = none →
      (ContentComparator.compare_discussion d c).has_changes = true ∧
      "graded_status" ∈ (ContentComparator.compare_discussion d c).changed_fields) ∧
    (d.graded = false →
      "points" ∉ (ContentComparator.compare_discussion d c).changed_fields ∧
      "due_date" ∉ (ContentComparator.compare_discussion d c).changed_fields ∧
      "grading_type" ∉ (ContentComparator.compare_discussion d c).changed_fields) := by
  constructor
  · intro hg ha
    simp only [ContentComparator.compare_discussion, mkResult, hg, ha]
    constructor
    · rw [Bool.not_eq_eq_eq_not, Bool.not_true]
      apply isEmpty_append_of_right
      simp
    · simp [List.mem_append]
  · intro hg
    simp only [ContentComparator.compare_discussion, mkResult, hg]
    cases hassign : c.assignment <;>
      simp [List.mem_append, mem_ite_list]

/-- Witness for C5 at concrete inputs (both conjuncts). -/
theorem C5_graded_flag_transition_witness :
    ((ContentComparator.compare_discussion
        { title := "Intro", message := "", graded := true }
        { title := some "Intro" }).has_changes = true ∧
      "graded_status" ∈ (ContentComparator.compare_discussion
        { title := "Intro", message := "", graded := true }
        { title := some "Intro" }).changed_fields) ∧
    "points" ∉ (ContentComparator.compare_discussion
        { title := "Intro", message := "", graded := false, points := 3 }
        { title := some "Intro" }).changed_fields :=
  ⟨(C5_graded_flag_transition
      { title := "Intro", message := "", graded := true }
      { title := some "Intro" }).1 rfl rfl,
    ((C5_graded_flag_transition
      { title := "Intro", message := "", graded := false, points := 3 }
      { title := some "Intro" }).2 rfl).1⟩

/-- C6: due-timestamp comparison in both change detectors — absent on both
sides is unchanged, absent on exactly one side is changed, and with a
timestamp on both sides the canonical ISO-8601 texts are compared (the
discussion detector compares due dates inside the graded branch). -/
theorem C6_due_timestamp_comparison (a : Assignment) (ca : CanvasAssignment)
    (d : Discussion) (cd : CanvasDiscussion) (sub : CanvasDiscAssignment) :
    ((a.due_at = none → ca.due_at = none →
       "due_date" ∉ (ContentComparator.compare_assignment a ca).changed_fields) ∧
     (∀ t, a.due_at = some t → ca.due_at = none →
       "due_date" ∈ (ContentComparator.compare_assignment a ca).changed_fields) ∧
     (∀ s, a.due_at = none → ca.due_at = some s → s ≠ "" →
       "due_date" ∈ (ContentComparator.compare_assignment a ca).changed_fields) ∧
     (∀ t s, a.due_at = some t → ca.due_at = some s → s ≠ "" →
       ("due_date" ∈ (ContentComparator.compare_assignment a ca).changed_fields ↔
         t.isoformat ≠ s))) ∧
    (d.graded = true → cd.assignment = some sub →
     ((d.due_at = none → sub.due_at = none →
        "due_date" ∉ (ContentComparator.compare_discussion d cd).changed_fields) ∧
      (∀ t, d.due_at = some t → sub.due_at = none →
        "due_date" ∈ (ContentComparator.compare_discussion d cd).changed_fields) ∧
      (∀ s, d.due_at = none → sub.due_at = some s → s ≠ "" →
        "due_date" ∈ (ContentComparator.compare_discussion d cd).changed_fields) ∧
      (∀ t s, d.due_at = some t → sub.due_at = some s → s ≠ "" →
        ("due_date" ∈ (ContentComparator.compare_discussion d cd).changed_fields ↔
          t.isoformat ≠ s)))) := by
  constructor
  · refine ⟨?_, ?_, ?_, ?_⟩
    · intro h1 h2
      simp [ContentComparator.compare_assignment, mkResult, h1, h2,
        List.mem_append, mem_ite_list, truthyStr]
    · intro t h1 h2
      simp [ContentComparator.compare_assignment, mkResult, h1, h2,
        List.mem_append, mem_ite_list, truthyStr]
    · intro s h1 h2 hs
      simp [ContentComparator.compare_assignment, mkResult, h1, h2, hs,
        List.mem_append, mem_ite_list, truthyStr]
    · intro t s h1 h2 hs
      simp [ContentComparator.compare_assignment, mkResult, h1, h2, hs,
        List.mem_append, mem_ite_list, truthyStr]
  · intro hg hsub
    refine ⟨?_, ?_, ?_, ?_⟩
    · intro h1 h2
      simp [ContentComparator.compare_discussion, mkResult, hg, hsub, h1, h2,
        List.mem_append, mem_ite_list, truthyStr]
    · intro t h1 h2
      simp [ContentComparator.compare_discussion, mkResult, hg, hsub, h1, h2,
        List.mem_append, mem_ite_list, truthyStr]
    · intro s h1 h2 hs
      simp [ContentComparator.compare_discussion, mkResult, hg, hsub, h1, h2,
        hs, List.mem_append, mem_ite_list, truthyStr]
    · intro t s h1 h2 hs
      simp [ContentComparator.compare_discussion, mkResult, hg, hsub, h1, h2,
        hs, List.mem_append, mem_ite_list, truthyStr]

/-- Witness for C6 at concrete inputs: both-absent is unchanged for the
assignment detector, one-sided absence is changed for both detectors. -/
theorem C6_due_timestamp_comparison_witness :
    ("due_date" ∉ (ContentComparator.compare_assignment
        { title := "Essay", description := "" }
        { name := some "Essay" }).changed_fields) ∧
    ("due_date" ∈ (ContentComparator.compare_assignment
        { title := "Essay", description := ""
          due_at := some ⟨2026, 1, 15, 23, 59, 0⟩ }
        { name := some "Essay" }).changed_fields) ∧
    ("due_date" ∈ (ContentComparator.compare_discussion
        { title := "Salon", message := "", graded := true
          due_at := some ⟨2026, 1, 15, 23, 59, 0⟩ }
        { title := some "Salon", assignment := some {} }).changed_fields) :=
  ⟨(C6_due_timestamp_comparison { title := "Essay", description := "" }
      { name := some "Essay" } { title := "", message := "" } {} {}).1.1 rfl rfl,
   (C6_due_timestamp_comparison
      { title := "Essay", description := ""
        due_at := some ⟨2026, 1, 15, 23, 59, 0⟩ }
      { name := some "Essay" } { title := "", message := "" } {} {}).1.2.1
      ⟨2026, 1, 15, 23, 59, 0⟩ rfl rfl,
   ((C6_due_timestamp_comparison { title := "", description := "" } {}
      { title := "Salon", message := "", graded := true
        due_at := some ⟨2026, 1, 15, 23, 59, 0⟩ }
      { title := some "Salon", assignment := some {} } {}).2 rfl rfl).2.1
      ⟨2026, 1, 15, 23, 59, 0⟩ rfl rfl⟩

/-- C4: `update_assignment_full` never writes a submission-types key into
its payload, for any argument values; `create_assignment` always includes
one. -/
theorem C4_submission_types_suppressed (aid : Nat) (name description : String)
    (points : Rat) (due : Option DateTime) (gt : String)
    (sts : Option (List String)) (published : Bool) :
    (∀ k v, (k, v) ∈
        update_assignment_full_payload aid name description points due gt sts →
      isSubmissionTypesKey k = false) ∧
    (∃ k v, (k, v) ∈
        create_assignment_payload name description points due gt sts published ∧
      isSubmissionTypesKey k = true) := by
  constructor
  · intro k v h
    have hk : k = "assignment[name]" ∨ k = "assignment[description]" ∨
        k = "assignment[points_possible]" ∨ k = "assignment[grading_type]" ∨
        k = "assignment[due_at]" := by
      cases due <;>
        simp [update_assignment_full_payload, Prod.ext_iff] at h <;> tauto
    rcases hk with rfl | rfl | rfl | rfl | rfl <;> decide
  · match sts with
    | none =>
      exact ⟨"assignment[submission_types][]", PV.str "online_text_entry",
        by cases due <;> simp [create_assignment_payload], by decide⟩
    | some [] =>
      exact ⟨"assignment[submission_types][]", PV.str "online_text_entry",
        by cases due <;> simp [create_assignment_payload], by decide⟩
    | some (x :: xs) =>
      by_cases hn : x :: xs = ["none"]
      · refine ⟨"assignment[submission_types][]", PV.str "none",
          ?_, by decide⟩
        cases due <;> simp [create_assignment_payload, hn]
      · refine ⟨"assignment[submission_types][0]", PV.str x, ?_, by decide⟩
        cases due <;>
          simp [create_assignment_payload, hn, List.enum, List.enumFrom] <;>
          exact Or.inl (by decide)

/-- Witness for C4 at concrete arguments: the name key of a concrete
update payload is not a submission-types key, and the corresponding create
payload contains a submission-types key. -/
theorem C4_submission_types_suppressed_witness :
    isSubmissionTypesKey "assignment[name]" = false ∧
    (∃ k v, (k, v) ∈ create_assignment_payload "Essay" "Write." 10 none
        "points" (some ["online_text_entry", "online_upload"]) true ∧
      isSubmissionTypesKey k = true) :=
  ⟨(C4_submission_types_suppressed 7 "Essay" "Write." 10 none "points"
      (some ["online_text_entry", "online_upload"]) true).1
      "assignment[name]" (PV.str "Essay") (by decide),
   (C4_submission_types_suppressed 7 "Essay" "Write." 10 none "points"
      (some ["online_text_entry", "online_upload"]) true).2⟩

/-- C8: normalization equivalence — the markdown form and the rich-markup
form of the same bold text normalize to the same canonical string. -/
theorem C8_normalization_equivalence :
    normalize_html "**Bold** text" = normalize_html "<strong>Bold</strong> text" := by
  decide

/-- C9: the normalizer is total and never propagates a markup-parse
failure: for every extractor behaviour (including one that fails on the
input) the `Except`-level pipeline returns `ok`, and whenever the
extractor fails on the preprocessed text the result is the
regular-pattern tag-stripping fallback. -/
theorem C9_normalizer_total (extract : String → Except String String)
    (content : String) :
    normalize_htmlE extract content =
      Except.ok (normalize_html_with extract content) ∧
    (∀ e, extract (markdown_to_html_basic (pyUnescape (pyStripS content))) =
        Except.error e →
      normalize_html_with extract content =
        pyLowerS (pyStripS (collapseWsS (stripTagsFallback
          (markdown_to_html_basic (pyUnescape (pyStripS content))))))) := by
  constructor
  · by_cases hc : content = ""
    · simp [normalize_htmlE, normalize_html_with, hc]
    · simp only [normalize_htmlE, normalize_html_with, hc, if_false]
      cases hx : extract (markdown_to_html_basic (pyUnescape (pyStripS content))) <;>
        simp [Except.map]
  · intro e he
    by_cases hc : content = ""
    · subst hc
      simp [normalize_html_with]
      decide
    · simp [normalize_html_with, hc, he]

/-- Witness for C9: a concretely failing extractor on a concrete body —
the pipeline still returns `ok`, via the fallback. -/
theorem C9_normalizer_total_witness :
    normalize_htmlE failingExtractor "<p>Hi <b>there" =
      Except.ok (normalize_html_with failingExtractor "<p>Hi <b>there") ∧
    normalize_html_with failingExtractor "<p>Hi <b>there" =
      pyLowerS (pyStripS (collapseWsS (stripTagsFallback
        (markdown_to_html_basic (pyUnescape (pyStripS "<p>Hi <b>there")))))) :=
  ⟨(C9_normalizer_total failingExtractor "<p>Hi <b>there").1,
   (C9_normalizer_total failingExtractor "<p>Hi <b>there").2
     "markup parse failure" rfl⟩

/-- A list is a `isPrefixOf`-prefix of itself followed by anything. -/
theorem isPrefixOf_append_self (t l : List Char) :
    t.isPrefixOf (t ++ l) = true :=
  List.isPrefixOf_iff_prefix.2 (List.prefix_append t l)

/-- Lemma: `takeWhile` walks through a block that satisfies the predicate. -/
theorem takeWhile_append_of_all {p : Char → Bool} (t l : List Char)
    (h : ∀ c ∈ t, p c = true) :
    (t ++ l).takeWhile p = t ++ l.takeWhile p := by
  induction t with
  | nil => simp
  | cons c cs ih => simp_all [List.takeWhile_cons]

/-- A nonempty list is not `isEmpty`. -/
theorem isEmpty_eq_false_of_ne_nil {α : Type} {t : List α} (h : t ≠ []) :
    t.isEmpty = false := by
  cases t <;> simp_all

/-- Lemma: `tryKind` recognises each kind tag at the head. -/
theorem tryKind_tag (k : LinkKind) (l : List Char) :
    tryKind (LinkKind.tag k ++ l) = some (k, l) := by
  cases k
  case page =>
    simp [tryKind, isPrefixOf_append_self, List.drop_left]
  case assignment =>
    have h : LinkKind.page.tag.isPrefixOf (LinkKind.assignment.tag ++ l) = false := rfl
    simp [tryKind, isPrefixOf_append_self, List.drop_left, h]
  case discussion =>
    have h1 : LinkKind.page.tag.isPrefixOf (LinkKind.discussion.tag ++ l) = false := rfl
    have h2 : LinkKind.assignment.tag.isPrefixOf (LinkKind.discussion.tag ++ l) = false := rfl
    simp [tryKind, isPrefixOf_append_self, List.drop_left, h1, h2]
  case file =>
    have h1 : LinkKind.page.tag.isPrefixOf (LinkKind.file.tag ++ l) = false := rfl
    have h2 : LinkKind.assignment.tag.isPrefixOf (LinkKind.file.tag ++ l) = false := rfl
    have h3 : LinkKind.discussion.tag.isPrefixOf (LinkKind.file.tag ++ l) = false := rfl
    simp [tryKind, isPrefixOf_append_self, List.drop_left, h1, h2, h3]

/-- Lemma: `tryLink` matches a well-formed placeholder at the head of the text,
consuming exactly the placeholder. -/
theorem tryLink_concat (k : LinkKind) (t rest : List Char)
    (ht : t ≠ []) (hc : ∀ c ∈ t, c ≠ ']') :
    tryLink ('[' :: '[' :: (k.tag ++ t ++ ']' :: ']' :: rest)) =
      some (k, t) := by
  have htw : (t ++ ']' :: ']' :: rest).takeWhile (fun c => c != ']') = t := by
    rw [takeWhile_append_of_all t (']' :: ']' :: rest)
        (fun c hcm => by simpa using hc c hcm)]
    simp [List.takeWhile_cons]
  simp [tryLink, List.append_assoc, tryKind_tag, htw,
    isEmpty_eq_false_of_ne_nil ht, List.drop_left]

/-- A matched placeholder has positive length. -/
theorem linkLen_pos (k : LinkKind) (t : List Char) : 1 ≤ linkLen k t := by
  simp [linkLen]

/-- Lemma: `resolveAux` on the empty text is empty, whatever the fuel. -/
theorem resolveAux_nil (r : LinkResolver) (fuel : Nat) :
    resolveAux r fuel [] = [] := by
  cases fuel <;> rfl

/-- Fuel irrelevance: any fuel at least the input length gives the same
scan result. -/
theorem resolveAux_fuel (r : LinkResolver) :
    ∀ fuel fuel' (l : List Char), l.length ≤ fuel → l.length ≤ fuel' →
      resolveAux r fuel l = resolveAux r fuel' l := by
  intro fuel
  induction fuel with
  | zero =>
    intro fuel' l h _
    have hl : l = [] := List.length_eq_zero.mp (Nat.le_zero.mp h)
    subst hl
    rw [resolveAux_nil, resolveAux_nil]
  | succ f ih =>
    intro fuel' l h h'
    cases l with
    | nil => rw [resolveAux_nil, resolveAux_nil]
    | cons c cs =>
      cases fuel' with
      | zero => simp at h'
      | succ f' =>
        cases htl : tryLink (c :: cs) with
        | none =>
          simp only [resolveAux, htl]
          simp only [List.length_cons] at h h'
          rw [ih f' cs (by omega) (by omega)]
        | some kt =>
          obtain ⟨k, t⟩ := kt
          have hn := linkLen_pos k t
          simp only [resolveAux, htl]
          simp only [List.length_cons] at h h'
          rw [ih f' ((c :: cs).drop (linkLen k t))
            (by simp only [List.length_drop, List.length_cons]; omega)
            (by simp only [List.length_drop, List.length_cons]; omega)]

/-- Drop an append by the exact length of its left part. -/
theorem drop_concat_exact {α : Type} {pref rest : List α} {n : Nat}
    (h : pref.length = n) : (pref ++ rest).drop n = rest := by
  subst h
  exact List.drop_left pref rest

/-- A text with no placeholder match scans to itself. -/
theorem resolveAux_no_match (r : LinkResolver) :
    ∀ fuel (l : List Char), hasLinkAux l = false → resolveAux r fuel l = l := by
  intro fuel
  induction fuel with
  | zero => intro l _; rfl
  | succ f ih =>
    intro l h
    cases l with
    | nil => rfl
    | cons c cs =>
      have h1 : tryLink (c :: cs) = none := by
        cases htl : tryLink (c :: cs) with
        | none => rfl
        | some x => simp [hasLinkAux, htl] at h
      have h2 : hasLinkAux cs = false := by
        simp [hasLinkAux] at h
        exact h.2
      simp [resolveAux, h1, ih cs h2]

/-- C2 counterexample: an unresolvable placeholder is NOT left verbatim —
`resolve` strips the brackets and kind tag, leaving only the bare title. -/
theorem C2_counterexample :
    emptyResolver.resolve "[[Page:Foo]]" ≠ "[[Page:Foo]]" ∧
    emptyResolver.resolve "[[Page:Foo]]" = "Foo" := by
  constructor <;> decide

/-- C2 amended: for every placeholder whose target is not registered (or
has no usable URL), `resolve` replaces the placeholder with the bare
stripped title text — a warning is reported on the console and the run
continues — and goes on scanning the remainder of the body. -/
theorem C2_unresolved_left_as_title (r : LinkResolver) (k : LinkKind)
    (t rest : List Char) (ht : t ≠ []) (hc : ∀ c ∈ t, c ≠ ']')
    (hmiss : resolveTarget r k (pyLowerS (pyStripS (String.mk t)))
        (pyStripS (String.mk t)) = none) :
    LinkResolver.resolve r
        (String.mk ('[' :: '[' :: (k.tag ++ t ++ ']' :: ']' :: rest))) =
      pyStripS (String.mk t) ++ LinkResolver.resolve r (String.mk rest) := by
  have hrepl : replaceLink r k t = pyStripS (String.mk t) := by
    simp [replaceLink, hmiss]
  have hdrop : ('[' :: '[' :: (k.tag ++ t ++ ']' :: ']' :: rest)).drop
      (linkLen k t) = rest := by
    have heq : ('[' :: '[' :: (k.tag ++ t ++ ']' :: ']' :: rest)) =
        ('[' :: '[' :: (k.tag ++ (t ++ [']', ']']))) ++ rest := by
      simp
    rw [heq]
    apply drop_concat_exact
    simp [linkLen]
    omega
  show String.mk (resolveAux r
      ('[' :: '[' :: (k.tag ++ t ++ ']' :: ']' :: rest)).length
      ('[' :: '[' :: (k.tag ++ t ++ ']' :: ']' :: rest))) = _
  simp only [List.length_cons, resolveAux, tryLink_concat k t rest ht hc,
    hrepl, hdrop]
  rw [resolveAux_fuel r ((k.tag ++ t ++ ']' :: ']' :: rest).length + 1)
    rest.length rest (by simp [List.length_append]; omega) (Nat.le_refl _)]
  rfl

/-- Witness for the amended C2: a concrete unregistered page placeholder
with trailing text becomes the bare title followed by the resolved tail. -/
theorem C2_unresolved_left_as_title_witness :
    emptyResolver.resolve
        (String.mk ('[' :: '[' :: (LinkKind.page.tag ++ "Foo".toList ++
          ']' :: ']' :: " tail".toList))) =
      pyStripS (String.mk "Foo".toList) ++
        emptyResolver.resolve (String.mk " tail".toList) :=
  C2_unresolved_left_as_title emptyResolver .page "Foo".toList " tail".toList
    (by decide) (by decide) (by decide)

/-- C10 counterexample: a single `resolve` pass does not always eliminate
every placeholder occurrence — substituted text adjacent to remaining
input can form a new placeholder, so `has_internal_links` can still hold
of the output and `resolve` is not idempotent. -/
theorem C10_counterexample :
    emptyResolver.has_internal_links
        (emptyResolver.resolve "[[[[Page:Page]]:y]]") = true ∧
    emptyResolver.resolve "[[[[Page:Page]]:y]]" = "[[Page:y]]" ∧
    emptyResolver.resolve (emptyResolver.resolve "[[[[Page:Page]]:y]]") ≠
      emptyResolver.resolve "[[[[Page:Page]]:y]]" := by
  refine ⟨by decide, by decide, by decide⟩

/-- C10 amended: a body with no placeholder match is left unchanged by
`resolve`, and `resolve` is idempotent on every body whose resolved form
contains no placeholder match (the substitution itself can create a fresh
match out of replacement text and adjacent input, so this side condition
is necessary — see the counterexample). -/
theorem C10_resolve_idempotent_when_clean (r : LinkResolver) (s : String) :
    (r.has_internal_links s = false → r.resolve s = s) ∧
    (r.has_internal_links (r.resolve s) = false →
      r.resolve (r.resolve s) = r.resolve s) := by
  have base : ∀ u : String, r.has_internal_links u = false → r.resolve u = u := by
    intro u hu
    show String.mk (resolveAux r u.toList.length u.toList) = u
    rw [resolveAux_no_match r u.toList.length u.toList hu]
    cases u
    rfl
  exact ⟨base s, base (r.resolve s)⟩

/-- Witness for the amended C10 at concrete bodies. -/
theorem C10_resolve_idempotent_when_clean_witness :
    emptyResolver.resolve "plain body" = "plain body" ∧
    emptyResolver.resolve (emptyResolver.resolve "[[Page:Foo]]") =
      emptyResolver.resolve "[[Page:Foo]]" :=
  ⟨(C10_resolve_idempotent_when_clean emptyResolver "plain body").1 (by decide),
   (C10_resolve_idempotent_when_clean emptyResolver "[[Page:Foo]]").2 (by decide)⟩

/-- Every call issued by the Phase-0.5 prefetch is a read. -/
theorem fetchCalls_reads (modules : List CourseModule) :
    ∀ c ∈ fetchCalls modules, c.isWrite = false := by
  intro c hc
  simp only [fetchCalls, List.mem_flatMap] at hc
  obtain ⟨m, _, hm⟩ := hc
  rw [List.mem_append] at hm
  rcases hm with hm | hm
  · cases h : m.canvas_module_id <;> simp_all [ApiCall.isWrite]
  · rw [List.mem_flatMap] at hm
    obtain ⟨it, _, hit⟩ := hm
    cases it with
    | page p =>
      cases h : p.canvas_page_id <;> simp_all [ApiCall.isWrite]
    | assignment a =>
      cases h : a.canvas_assignment_id <;> simp_all [ApiCall.isWrite]
    | discussion d =>
      cases h : d.canvas_discussion_id <;> simp_all [ApiCall.isWrite]
    | header hh =>
      cases h1 : hh.canvas_module_item_id <;>
        cases h2 : m.canvas_module_id <;> simp_all [ApiCall.isWrite]
    | link l =>
      cases h1 : l.canvas_module_item_id <;>
        cases h2 : m.canvas_module_id <;> simp_all [ApiCall.isWrite]
    | file f => simp_all

/-- C3: a dry run issues no write call — only the file listing and the
per-identity snapshot reads happen before the preview is printed. -/
theorem C3_dry_run_issues_no_writes (env : Env) (modules : List CourseModule) :
    (CourseBuilder.build env modules true).all (fun c => !c.isWrite) = true := by
  rw [List.all_eq_true]
  intro c hc
  simp only [CourseBuilder.build, if_true] at hc
  rw [List.mem_append] at hc
  rcases hc with hc | hc
  · split at hc
    · simp only [List.mem_singleton] at hc
      subst hc
      rfl
    · simp at hc
  · split at hc
    · simp [fetchCalls_reads modules c hc]
    · simp at hc

/-- Lemma: `afind` success yields a member of the list. -/
theorem afind_mem {κ α : Type} [DecidableEq κ] {l : List (κ × α)} {k : κ}
    {v : α} (h : afind l k = some v) : (k, v) ∈ l := by
  induction l with
  | nil => simp [afind] at h
  | cons kv rest ih =>
    obtain ⟨k', v'⟩ := kv
    by_cases hk : k' = k
    · subst hk
      simp [afind] at h
      simp [h]
    · simp [afind, hk] at h
      exact List.mem_cons_of_mem _ (ih h)

/-- Lemma: `afind` succeeds on a present key. -/
theorem afind_isSome_of_mem {κ α : Type} [DecidableEq κ] {l : List (κ × α)}
    {k : κ} {v : α} (h : (k, v) ∈ l) : (afind l k).isSome := by
  induction l with
  | nil => simp at h
  | cons kv rest ih =>
    obtain ⟨k', v'⟩ := kv
    by_cases hk : k' = k
    · subst hk
      simp [afind]
    · simp [afind, hk]
      rcases List.mem_cons.mp h with heq | hmem
      · cases heq
        exact absurd rfl hk
      · exact ih hmem

/-- Lemma: `afind` misses a key with no entry. -/
theorem afind_eq_none {κ α : Type} [DecidableEq κ] {l : List (κ × α)} {k : κ}
    (h : ∀ v, (k, v) ∈ l → False) : afind l k = none := by
  cases hf : afind l k with
  | none => rfl
  | some v => exact absurd (afind_mem hf) (fun hm => h v hm)

/-- When every entry under a key carries the same value and the key is
present, `afind` returns that value. -/
theorem afind_of_consistent {κ α : Type} [DecidableEq κ] {l : List (κ × α)}
    {k : κ} {v : α} (hmem : (k, v) ∈ l)
    (hcons : ∀ v', (k, v') ∈ l → v' = v) : afind l k = some v := by
  cases hf : afind l k with
  | none =>
    have hs := afind_isSome_of_mem hmem
    rw [hf] at hs
    simp at hs
  | some v' => rw [hcons v' (afind_mem hf)]

/-- Every cached module snapshot is the oracle's answer for its key. -/
theorem buildCaches_modules_env {env : Env} {modules : List CourseModule}
    {mid : Nat} {cd : CanvasModule}
    (h : (mid, cd) ∈ (buildCaches env modules).modules) :
    env.modules mid = some cd := by
  simp only [buildCaches, List.mem_filterMap] at h
  obtain ⟨m, -, hm⟩ := h
  cases h1 : m.canvas_module_id <;> simp [h1] at hm
  obtain ⟨hv, rfl⟩ := hm
  exact hv

/-- Every cached page snapshot is the oracle's answer for its key. -/
theorem buildCaches_pages_env {env : Env} {modules : List CourseModule}
    {pid : String} {cd : CanvasPage}
    (h : (pid, cd) ∈ (buildCaches env modules).pages) :
    env.pages pid = some cd := by
  simp only [buildCaches, List.mem_filterMap] at h
  obtain ⟨it, -, hm⟩ := h
  cases it <;> simp at hm
  case page x =>
    cases h1 : x.canvas_page_id <;> simp [h1] at hm
    obtain ⟨hv, rfl⟩ := hm
    exact hv

/-- Every cached assignment snapshot is the oracle's answer for its key. -/
theorem buildCaches_assignments_env {env : Env} {modules : List CourseModule}
    {aid : Nat} {cd : CanvasAssignment}
    (h : (aid, cd) ∈ (buildCaches env modules).assignments) :
    env.assignments aid = some cd := by
  simp only [buildCaches, List.mem_filterMap] at h
  obtain ⟨it, -, hm⟩ := h
  cases it <;> simp at hm
  case assignment x =>
    cases h1 : x.canvas_assignment_id <;> simp [h1] at hm
    obtain ⟨hv, rfl⟩ := hm
    exact hv

/-- Every cached discussion snapshot is the oracle's answer for its key. -/
theorem buildCaches_discussions_env {env : Env} {modules : List CourseModule}
    {did : Nat} {cd : CanvasDiscussion}
    (h : (did, cd) ∈ (buildCaches env modules).discussions) :
    env.discussions did = some cd := by
  simp only [buildCaches, List.mem_filterMap] at h
  obtain ⟨it, -, hm⟩ := h
  cases it <;> simp at hm
  case discussion x =>
    cases h1 : x.canvas_discussion_id <;> simp [h1] at hm
    obtain ⟨hv, rfl⟩ := hm
    exact hv

/-- If the module fetch failed, the run's cache has no module entry. -/
theorem cacheChoice_modules_none (env : Env) (modules : List CourseModule)
    (mid : Nat) (h : env.modules mid = none) :
    afind (if hasExisting modules then buildCaches env modules
      else emptyCaches).modules mid = none := by
  split
  · exact afind_eq_none (fun v hv => by
      have hc := buildCaches_modules_env hv
      rw [h] at hc
      exact Option.noConfusion hc)
  · rfl

/-- If the page fetch failed, the run's cache has no page entry. -/
theorem cacheChoice_pages_none (env : Env) (modules : List CourseModule)
    (pid : String) (h : env.pages pid = none) :
    afind (if hasExisting modules then buildCaches env modules
      else emptyCaches).pages pid = none := by
  split
  · exact afind_eq_none (fun v hv => by
      have hc := buildCaches_pages_env hv
      rw [h] at hc
      exact Option.noConfusion hc)
  · rfl

/-- If the assignment fetch failed, the run's cache has no entry. -/
theorem cacheChoice_assignments_none (env : Env) (modules : List CourseModule)
    (aid : Nat) (h : env.assignments aid = none) :
    afind (if hasExisting modules then buildCaches env modules
      else emptyCaches).assignments aid = none := by
  split
  · exact afind_eq_none (fun v hv => by
      have hc := buildCaches_assignments_env hv
      rw [h] at hc
      exact Option.noConfusion hc)
  · rfl

/-- If the discussion fetch failed, the run's cache has no entry. -/
theorem cacheChoice_discussions_none (env : Env) (modules : List CourseModule)
    (did : Nat) (h : env.discussions did = none) :
    afind (if hasExisting modules then buildCaches env modules
      else emptyCaches).discussions did = none := by
  split
  · exact afind_eq_none (fun v hv => by
      have hc := buildCaches_discussions_env hv
      rw [h] at hc
      exact Option.noConfusion hc)
  · rfl

/-- A Phase-1 call belongs to the full (non-dry-run) trace. -/
theorem mem_build_of_phase1 {env : Env} {modules : List CourseModule}
    {c : ApiCall}
    (h : c ∈ phase1Calls
      (if hasExisting modules then buildCaches env modules else emptyCaches)
      modules) :
    c ∈ CourseBuilder.build env modules false := by
  simp only [CourseBuilder.build, Bool.false_eq_true, if_false]
  simp only [List.mem_append]
  tauto

/-- C7: an entity that declares a remote identity but whose snapshot fetch
failed (no cached comparison data) is updated unconditionally — the run's
trace contains the full-record update call for it, never a silent skip. -/
theorem C7_no_snapshot_conservative_update (env : Env)
    (modules : List CourseModule) (m : CourseModule) (hm : m ∈ modules) :
    (∀ mid, m.canvas_module_id = some mid → env.modules mid = none →
      ApiCall.updateModule mid ∈ CourseBuilder.build env modules false) ∧
    ∀ it, it ∈ m.items →
      (∀ p pid, it = Item.page p → p.canvas_page_id = some pid →
        env.pages pid = none →
        ApiCall.updatePage pid ∈ CourseBuilder.build env modules false) ∧
      (∀ a aid, it = Item.assignment a → a.canvas_assignment_id = some aid →
        env.assignments aid = none →
        ApiCall.updateAssignmentFull aid ∈ CourseBuilder.build env modules false) ∧
      (∀ d did, it = Item.discussion d → d.canvas_discussion_id = some did →
        env.discussions did = none →
        ApiCall.updateDiscussionFull did ∈ CourseBuilder.build env modules false) := by
  constructor
  · intro mid hid henv
    apply mem_build_of_phase1
    refine List.mem_flatMap.2 ⟨m, hm, List.mem_append.2 (Or.inl ?_)⟩
    simp [moduleCalls, hid, cacheChoice_modules_none env modules mid henv]
  · intro it hit
    refine ⟨?_, ?_, ?_⟩
    · intro p pid heq hid henv
      subst heq
      apply mem_build_of_phase1
      refine List.mem_flatMap.2 ⟨m, hm, List.mem_append.2 (Or.inr ?_)⟩
      refine List.mem_flatMap.2 ⟨Item.page p, hit, ?_⟩
      simp [itemPhase1Calls, hid, cacheChoice_pages_none env modules pid henv]
    · intro a aid heq hid henv
      subst heq
      apply mem_build_of_phase1
      refine List.mem_flatMap.2 ⟨m, hm, List.mem_append.2 (Or.inr ?_)⟩
      refine List.mem_flatMap.2 ⟨Item.assignment a, hit, ?_⟩
      simp [itemPhase1Calls, hid,
        cacheChoice_assignments_none env modules aid henv]
    · intro d did heq hid henv
      subst heq
      apply mem_build_of_phase1
      refine List.mem_flatMap.2 ⟨m, hm, List.mem_append.2 (Or.inr ?_)⟩
      refine List.mem_flatMap.2 ⟨Item.discussion d, hit, ?_⟩
      simp [itemPhase1Calls, hid,
        cacheChoice_discussions_none env modules did henv]

/-- Witness for C7: a concrete assignment whose fetch fails is updated. -/
theorem C7_no_snapshot_conservative_update_witness :
    ApiCall.updateAssignmentFull 7 ∈ CourseBuilder.build envW7 modsW7 false :=
  ((C7_no_snapshot_conservative_update envW7 modsW7
      { title := "Week 2"
        canvas_module_id := some 5
        items := [Item.assignment { title := "Essay", description := "Write."
                                    canvas_assignment_id := some 7 }] }
      (by decide)).2
    (Item.assignment { title := "Essay", description := "Write."
                       canvas_assignment_id := some 7 }) (by decide)).2.1
    { title := "Essay", description := "Write."
      canvas_assignment_id := some 7 } 7 rfl rfl rfl

/-- A successful module fetch is found in the cache under its id. -/
theorem afind_buildCaches_modules {env : Env} {modules : List CourseModule}
    {m : CourseModule} {mid : Nat} {cd : CanvasModule} (hm : m ∈ modules)
    (hid : m.canvas_module_id = some mid) (henv : env.modules mid = some cd) :
    afind (buildCaches env modules).modules mid = some cd := by
  apply afind_of_consistent
  · simp only [buildCaches, List.mem_filterMap]
    exact ⟨m, hm, by simp [hid, henv]⟩
  · intro v' hv'
    have hc := buildCaches_modules_env hv'
    rw [henv] at hc
    exact (Option.some.inj hc).symm

/-- A successful page fetch is found in the cache under its id. -/
theorem afind_buildCaches_pages {env : Env} {modules : List CourseModule}
    {m : CourseModule} {p : Page} {pid : String} {cd : CanvasPage}
    (hm : m ∈ modules) (hit : Item.page p ∈ m.items)
    (hid : p.canvas_page_id = some pid) (henv : env.pages pid = some cd) :
    afind (buildCaches env modules).pages pid = some cd := by
  apply afind_of_consistent
  · simp only [buildCaches, List.mem_filterMap]
    exact ⟨Item.page p, List.mem_flatMap.2 ⟨m, hm, hit⟩, by simp [hid, henv]⟩
  · intro v' hv'
    have hc := buildCaches_pages_env hv'
    rw [henv] at hc
    exact (Option.some.inj hc).symm

/-- A successful assignment fetch is found in the cache under its id. -/
theorem afind_buildCaches_assignments {env : Env} {modules : List CourseModule}
    {m : CourseModule} {a : Assignment} {aid : Nat} {cd : CanvasAssignment}
    (hm : m ∈ modules) (hit : Item.assignment a ∈ m.items)
    (hid : a.canvas_assignment_id = some aid)
    (henv : env.assignments aid = some cd) :
    afind (buildCaches env modules).assignments aid = some cd := by
  apply afind_of_consistent
  · simp only [buildCaches, List.mem_filterMap]
    exact ⟨Item.assignment a, List.mem_flatMap.2 ⟨m, hm, hit⟩,
      by simp [hid, henv]⟩
  · intro v' hv'
    have hc := buildCaches_assignments_env hv'
    rw [henv] at hc
    exact (Option.some.inj hc).symm

/-- A successful discussion fetch is found in the cache under its id. -/
theorem afind_buildCaches_discussions {env : Env} {modules : List CourseModule}
    {m : CourseModule} {d : Discussion} {did : Nat} {cd : CanvasDiscussion}
    (hm : m ∈ modules) (hit : Item.discussion d ∈ m.items)
    (hid : d.canvas_discussion_id = some did)
    (henv : env.discussions did = some cd) :
    afind (buildCaches env modules).discussions did = some cd := by
  apply afind_of_consistent
  · simp only [buildCaches, List.mem_filterMap]
    exact ⟨Item.discussion d, List.mem_flatMap.2 ⟨m, hm, hit⟩,
      by simp [hid, henv]⟩
  · intro v' hv'
    have hc := buildCaches_discussions_env hv'
    rw [henv] at hc
    exact (Option.some.inj hc).symm

/-- On a clean tree (every entity has identity, a successful fetch and no
detected change), Phase 1 issues no call at all. -/
theorem phase1Calls_nil {env : Env} {modules : List CourseModule}
    (h : ∀ m ∈ modules, moduleClean env m = true) :
    phase1Calls
      (if hasExisting modules then buildCaches env modules else emptyCaches)
      modules = [] := by
  rw [List.eq_nil_iff_forall_not_mem]
  intro c hc
  rw [phase1Calls, List.mem_flatMap] at hc
  obtain ⟨m, hm, hc⟩ := hc
  have hclean := h m hm
  rw [moduleClean, Bool.and_eq_true] at hclean
  obtain ⟨h1, h2⟩ := hclean
  have hex : hasExisting modules = true := by
    rw [hasExisting, List.any_eq_true]
    refine ⟨m, hm, ?_⟩
    cases hid : m.canvas_module_id
    · rw [hid] at h1
      simp at h1
    · simp [hid]
  rw [if_pos hex] at hc
  rcases List.mem_append.mp hc with hc | hc
  · cases hid : m.canvas_module_id with
    | none =>
      rw [hid] at h1
      simp at h1
    | some mid =>
      rw [hid] at h1
      dsimp only at h1
      cases henv : env.modules mid with
      | none =>
        rw [henv] at h1
        simp at h1
      | some cd =>
        rw [henv] at h1
        dsimp only at h1
        rw [Bool.not_eq_true'] at h1
        have hmc : moduleCalls (buildCaches env modules) m = [] := by
          simp [moduleCalls, hid, afind_buildCaches_modules hm hid henv, h1]
        rw [hmc] at hc
        simp at hc
  · rw [List.mem_flatMap] at hc
    obtain ⟨it, hit, hc⟩ := hc
    have hic : itemClean env it = true := (List.all_eq_true.mp h2) it hit
    cases it with
    | header hh => simp [itemPhase1Calls] at hc
    | link l => simp [itemPhase1Calls] at hc
    | file f => simp [itemPhase1Calls] at hc
    | page p =>
      rw [itemClean, Bool.and_eq_true, Bool.and_eq_true] at hic
      obtain ⟨⟨-, hb⟩, -⟩ := hic
      cases hid : p.canvas_page_id with
      | none =>
        rw [hid] at hb
        simp at hb
      | some pid =>
        rw [hid] at hb
        dsimp only at hb
        cases henv : env.pages pid with
        | none =>
          rw [henv] at hb
          simp at hb
        | some cd =>
          rw [henv] at hb
          dsimp only at hb
          rw [Bool.not_eq_true'] at hb
          have hic : itemPhase1Calls (buildCaches env modules)
              (Item.page p) = [] := by
            simp [itemPhase1Calls, hid, afind_buildCaches_pages hm hit hid henv, hb]
          rw [hic] at hc
          simp at hc
    | assignment a =>
      rw [itemClean, Bool.and_eq_true, Bool.and_eq_true] at hic
      obtain ⟨⟨-, hb⟩, -⟩ := hic
      cases hid : a.canvas_assignment_id with
      | none =>
        rw [hid] at hb
        simp at hb
      | some aid =>
        rw [hid] at hb
        dsimp only at hb
        cases henv : env.assignments aid with
        | none =>
          rw [henv] at hb
          simp at hb
        | some cd =>
          rw [henv] at hb
          dsimp only at hb
          rw [Bool.not_eq_true'] at hb
          have hic : itemPhase1Calls (buildCaches env modules)
              (Item.assignment a) = [] := by
            simp [itemPhase1Calls, hid, afind_buildCaches_assignments hm hit hid henv, hb]
          rw [hic] at hc
          simp at hc
    | discussion d =>
      rw [itemClean, Bool.and_eq_true, Bool.and_eq_true] at hic
      obtain ⟨⟨-, hb⟩, -⟩ := hic
      cases hid : d.canvas_discussion_id with
      | none =>
        rw [hid] at hb
        simp at hb
      | some did =>
        rw [hid] at hb
        dsimp only at hb
        cases henv : env.discussions did with
        | none =>
          rw [henv] at hb
          simp at hb
        | some cd =>
          rw [henv] at hb
          dsimp only at hb
          rw [Bool.not_eq_true'] at hb
          have hic : itemPhase1Calls (buildCaches env modules)
              (Item.discussion d) = [] := by
            simp [itemPhase1Calls, hid, afind_buildCaches_discussions hm hit hid henv, hb]
          rw [hic] at hc
          simp at hc

/-- On a clean tree no item needs link resolution, so Phase 2 is silent. -/
theorem phase2Calls_nil (env : Env) (cache : Caches)
    (files_cache : List FileData) {modules : List CourseModule}
    (h : ∀ m ∈ modules, moduleClean env m = true) :
    phase2Calls env cache files_cache modules = [] := by
  rw [List.eq_nil_iff_forall_not_mem]
  intro c hc
  rw [phase2Calls, List.mem_flatMap] at hc
  obtain ⟨it, hit, -⟩ := hc
  rw [List.mem_flatMap] at hit
  obtain ⟨m, hm, hit⟩ := hit
  rw [List.mem_filter] at hit
  obtain ⟨hmem, hneed⟩ := hit
  have hclean := h m hm
  rw [moduleClean, Bool.and_eq_true] at hclean
  have hic : itemClean env it = true :=
    (List.all_eq_true.mp hclean.2) it hmem
  cases it <;> simp_all [needsLinkRes, itemClean]

/-- Phase 1 does not touch an item's placement identity. -/
theorem applyPhase1Item_module_item_id (env : Env) (cache : Caches)
    (files_cache : List FileData) (it : Item) :
    itemModuleItemId (applyPhase1Item env cache files_cache it) =
      itemModuleItemId it := by
  cases it <;>
    simp only [applyPhase1Item] <;>
    (repeat' split) <;>
    rfl

/-- A clean item carries a placement identity. -/
theorem itemClean_module_item_id {env : Env} {it : Item}
    (h : itemClean env it = true) : (itemModuleItemId it).isSome := by
  cases it <;> simp_all [itemClean, itemModuleItemId]

/-- Phase 3 only ever position-updates an item that carries a placement
identity. -/
theorem phase3ItemCalls_update {mcid : Nat} {it : Item}
    (h : (itemModuleItemId it).isSome) :
    ∀ c ∈ phase3ItemCalls mcid it, isUpdateModuleItem c = true := by
  intro c hc
  cases it with
  | header hh =>
    cases hi : hh.canvas_module_item_id <;>
      simp_all [phase3ItemCalls, isUpdateModuleItem, itemModuleItemId]
  | page p =>
    cases hi : p.canvas_module_item_id <;>
      simp_all [phase3ItemCalls, isUpdateModuleItem, itemModuleItemId]
  | link l =>
    cases hi : l.canvas_module_item_id <;>
      simp_all [phase3ItemCalls, isUpdateModuleItem, itemModuleItemId]
  | file f =>
    cases hf : f.canvas_file_id <;>
      cases hi : f.canvas_module_item_id <;>
      simp_all [phase3ItemCalls, isUpdateModuleItem, itemModuleItemId]
  | assignment a =>
    cases hi : a.canvas_module_item_id <;>
      simp_all [phase3ItemCalls, isUpdateModuleItem, itemModuleItemId]
  | discussion d =>
    cases hi : d.canvas_module_item_id <;>
      simp_all [phase3ItemCalls, isUpdateModuleItem, itemModuleItemId]

/-- C1 counterexample: a tree whose module and placement snapshots all
match the local state (every entity `moduleClean`) still issues one write
on a re-run — the unconditional Phase-3 placement update — so a second
`reconcile` run is not write-free. -/
theorem C1_counterexample :
    modsC1.all (moduleClean envC1) = true ∧
    (CourseBuilder.build envC1 modsC1 false).filter ApiCall.isWrite =
      [ApiCall.updateModuleItem 1 2] := by
  constructor <;> decide

/-- C1 amended: on a tree with no local changes (all entities carry their
identities, every snapshot fetch succeeds and detects no difference, and
no body holds a reference placeholder), the second run issues no content
write — every write in the trace is a Phase-3 placement update
(`update_module_item`), which the builder performs unconditionally. -/
theorem C1_second_run_writes_only_placement (env : Env)
    (modules : List CourseModule)
    (h : modules.all (moduleClean env) = true) :
    (CourseBuilder.build env modules false).all
      (fun c => !c.isWrite || isUpdateModuleItem c) = true := by
  have hall := List.all_eq_true.mp h
  rw [List.all_eq_true]
  intro c hc
  simp only [CourseBuilder.build, Bool.false_eq_true, if_false] at hc
  rw [phase1Calls_nil hall, phase2Calls_nil env _ _ hall] at hc
  simp only [List.append_nil, List.nil_append, List.mem_append] at hc
  rcases hc with (hc | hc) | hc
  · split at hc
    · simp only [List.mem_singleton] at hc
      subst hc
      rfl
    · simp at hc
  · split at hc
    · have hr := fetchCalls_reads modules c hc
      simp [hr]
    · simp at hc
  · rw [phase3Calls, List.mem_flatMap] at hc
    obtain ⟨m, hm, hc⟩ := hc
    rw [List.mem_flatMap] at hc
    obtain ⟨it, hit, hc⟩ := hc
    have hclean := hall m hm
    rw [moduleClean, Bool.and_eq_true] at hclean
    have hic : itemClean env it = true :=
      (List.all_eq_true.mp hclean.2) it hit
    have hmi : (itemModuleItemId (applyPhase1Item env
        (if hasExisting modules then buildCaches env modules else emptyCaches)
        (if (modules.any fun m => m.items.any isFileItem) ||
            (modules.any fun m => m.items.any itemHasFileLink)
          then env.files else []) it)).isSome := by
      rw [applyPhase1Item_module_item_id]
      exact itemClean_module_item_id hic
    have hu := phase3ItemCalls_update hmi c hc
    simp [hu]

/-- Witness for the amended C1 on the concrete clean tree. -/
theorem C1_second_run_writes_only_placement_witness :
    (CourseBuilder.build envC1 modsC1 false).all
      (fun c => !c.isWrite || isUpdateModuleItem c) = true :=
  C1_second_run_writes_only_placement envC1 modsC1 (by decide)
